import Mathlib

/-!
Verification of the rainbow-probability scorer (`RainbowCalculator.js`,
`src/mobile-app/RainbowFinder/services/`) and of the solar-events calculator
(`SunCalculator.js`, `src/services/`) of the rainbowfinder repository.

The JavaScript is shallowly embedded over ℚ (JS numbers are IEEE doubles;
every operation the verified claims depend on — comparisons, piecewise linear
arithmetic, clamping, rounding — is exact in ℚ).  Calls into `Math.cos`,
`Math.sin`, `Math.tan`, `Math.asin`, `Math.acos`, `Math.atan2` are modelled as
oracle function parameters (`cosDeg`, `Trig`): the embedded code is proved
correct for every oracle, and witnesses instantiate the oracle with concrete
rational values close to the true trigonometric values.

`Date` objects are embedded as the accessor values the code reads from them:
`getHours()`, `getMinutes()`, `getMonth()+1` become the `hour`, `minutes`,
`month` parameters of the scorer; a `Date` produced by `SunCalculator` is its
millisecond epoch value (a ℚ).  `SunCalculator.calculateSunPosition` is pure
and deterministic, so the scorer is parameterised over its output `SunPos`.
-/

/-- JS `Math.round`: round half towards positive infinity. -/
def jsRound (q : ℚ) : ℤ := ⌊q + 1/2⌋

/-- Truncation towards zero, as used by the JS `%` operator. -/
def jsTrunc (q : ℚ) : ℤ := if q < 0 then -⌊-q⌋ else ⌊q⌋

/-- JS `%` (remainder with the sign of the dividend). -/
def jsMod (a b : ℚ) : ℚ := a - b * (jsTrunc (a / b) : ℚ)

/-- JS `String.prototype.toLowerCase`, restricted to ASCII case mapping
(`Char.toLower`); the Cyrillic description literals the code compares against
are already lower-case, and no verified claim depends on lowering non-ASCII
input. -/
def jsToLowerCase (s : String) : String := String.mk (s.toList.map Char.toLower)

/-- JS `String.prototype.includes`: substring containment. -/
def strIncludes (s pat : String) : Bool :=
  s.toList.tails.any (fun t => pat.toList.isPrefixOf t)

/-! Physical and meteorological constants of `RainbowCalculator` (lines 10-22). -/

def RAINBOW_ANGLE_PRIMARY : ℚ := 42
def RAINBOW_ANGLE_SECONDARY : ℚ := 51
def CRITICAL_SUN_ANGLE : ℚ := 42
def OPTIMAL_SUN_ANGLES : ℚ × ℚ := (15, 25)
def RAINBOW_WIDTH : ℚ := 2
def MIN_HUMIDITY : ℚ := 60
def OPTIMAL_HUMIDITY : ℚ × ℚ := (75, 90)
def MIN_VISIBILITY : ℚ := 5000
def OPTIMAL_VISIBILITY : ℚ := 10000
def MAX_WIND_SPEED : ℚ := 10

/-! Data model: the OpenWeather-shaped snapshot consumed by the scorer.
Sub-objects the code reads unconditionally (`weather.main`, `weather.clouds`,
`weather.weather[0]`) are `Option`/`List`-valued so that their absence can be
modelled (JS throws a `TypeError` which the scorer's `catch` swallows);
sub-objects the code itself guards (`rain`, `wind`, `visibility`,
`recentRain`, `uvi`) are `Option`-valued with the code's own defaults. -/

structure WeatherMain where
  temp : ℚ
  humidity : ℚ
  pressure : ℚ
  deriving DecidableEq, Repr

structure WeatherDesc where
  description : String
  deriving DecidableEq, Repr

structure Clouds where
  all : ℚ
  deriving DecidableEq, Repr

structure Wind where
  speed : ℚ
  deriving DecidableEq, Repr

/-- `weather.rain` object; `oneHour` is the `'1h'` field. -/
structure RainInfo where
  oneHour : Option ℚ
  deriving DecidableEq, Repr

structure RecentRain where
  hasRecentRain : Bool
  timeSinceRain : ℚ
  isOptimal : Bool
  deriving DecidableEq, Repr

structure Weather where
  main : Option WeatherMain
  weather : List WeatherDesc
  clouds : Option Clouds
  visibility : Option ℚ
  wind : Option Wind
  rain : Option RainInfo
  recentRain : Option RecentRain
  uvi : Option ℚ
  deriving DecidableEq, Repr

/-- The sun-position fields the scorer reads (`SunCalculator` output). -/
structure SunPos where
  altitude : ℚ
  azimuth : ℚ
  deriving DecidableEq, Repr

/-- Output of `calculateTimeFactors` (the `solarEvents` field it also stores is
passed to `generateRecommendations` directly and is omitted here). -/
structure TimeFactors where
  timeOfDayFactor : ℚ
  seasonalFactor : ℚ
  currentHour : ℕ
  deriving DecidableEq, Repr

structure WeatherFactors where
  rainFactor : ℚ
  humidityFactor : ℚ
  cloudFactor : ℚ
  visibilityFactor : ℚ
  windFactor : ℚ
  temperatureFactor : ℚ
  recentRainFactor : ℚ
  sunlightFactor : ℚ
  deriving DecidableEq, Repr

structure AtmosphericFactors where
  lightScatteringFactor : ℚ
  pressureFactor : ℚ
  airQualityFactor : ℚ
  deriving DecidableEq, Repr

structure GeometricFactors where
  lightScatteringFactor : ℚ
  dropletDistributionFactor : ℚ
  airmass : ℚ
  deriving DecidableEq, Repr

/-- The direction object of `calculateRainbowDirection`; `rangeStart`/`rangeEnd`
are the JS `range.start`/`range.end` fields. -/
structure RainbowDirection where
  center : ℚ
  rangeStart : ℚ
  rangeEnd : ℚ
  elevation : ℚ
  dirType : String
  deriving DecidableEq, Repr

structure ConditionFlag where
  ctype : String
  message : String
  deriving DecidableEq, Repr

/-- The `factors` field of the result: either the short-circuit/fallback
`reason` object or the full factor breakdown. -/
inductive FactorsInfo where
  | reason (msg : String)
  | computed (sunAngle : ℚ) (weather : WeatherFactors) (atmospheric : AtmosphericFactors)
      (timing : TimeFactors) (geometric : GeometricFactors)
  deriving DecidableEq, Repr

structure RainbowResult where
  probability : ℚ
  direction : Option RainbowDirection
  quality : String
  sunPosition : Option SunPos
  factors : FactorsInfo
  conditions : List ConditionFlag
  recommendations : List String
  deriving DecidableEq, Repr

/-- The values `generateRecommendations` reads from the `solarEvents` object:
`sunset` is the pair `(getHours(), getMinutes())` of the sunset `Date`, when
present. -/
structure ScorerSolarEvents where
  sunset : Option (ℕ × ℕ)
  deriving DecidableEq, Repr

/-- `calculateSunAngleFactor` (RainbowCalculator.js lines 148-179). -/
def calculateSunAngleFactor (sunAltitude : ℚ) : ℚ :=
  if sunAltitude ≤ 0 then 0
  else if sunAltitude < 5 then 0
  else if sunAltitude > CRITICAL_SUN_ANGLE then 0
  else if OPTIMAL_SUN_ANGLES.1 ≤ sunAltitude ∧ sunAltitude ≤ OPTIMAL_SUN_ANGLES.2 then 1
  else if sunAltitude < OPTIMAL_SUN_ANGLES.1 then
    3/10 + 7/10 * (sunAltitude / OPTIMAL_SUN_ANGLES.1)
  else
    1 - 8/10 * ((sunAltitude - OPTIMAL_SUN_ANGLES.2) / (CRITICAL_SUN_ANGLE - OPTIMAL_SUN_ANGLES.2))

/-- `calculateTimeFactors` (lines 184-221); `hour`, `minutes`, `month` are
`dateTime.getHours()`, `dateTime.getMinutes()`, `dateTime.getMonth()+1`. -/
def calculateTimeFactors (hour minutes month : ℕ) : TimeFactors :=
  let timeDecimal : ℚ := (hour : ℚ) + (minutes : ℚ) / 60
  let timeOfDayFactor : ℚ :=
    if (6 ≤ timeDecimal ∧ timeDecimal ≤ 10) ∨ (16 ≤ timeDecimal ∧ timeDecimal ≤ 20) then 1
    else if (10 ≤ timeDecimal ∧ timeDecimal ≤ 12) ∨ (14 ≤ timeDecimal ∧ timeDecimal ≤ 16) then 6/10
    else if (5 ≤ timeDecimal ∧ timeDecimal < 6) ∨ (20 < timeDecimal ∧ timeDecimal ≤ 21) then 4/10
    else 1/10
  let seasonalFactor : ℚ :=
    if 4 ≤ month ∧ month ≤ 9 then 1
    else if (3 ≤ month ∧ month ≤ 4) ∨ (9 ≤ month ∧ month ≤ 10) then 9/10
    else 8/10
  { timeOfDayFactor := timeOfDayFactor, seasonalFactor := seasonalFactor, currentHour := hour }

/-- `calculateWeatherFactors` (lines 226-338).  `m`, `cloudsAll` and `desc` are
the values of `weather.main`, `weather.clouds.all` and
`weather.weather[0].description`, which the JS reads from `weather` and which
throw when absent (that case is routed in `rainbowTryBody` below). -/
def calculateWeatherFactors (w : Weather) (m : WeatherMain) (cloudsAll : ℚ) (desc : String) :
    WeatherFactors :=
  let description := jsToLowerCase desc
  let recentRainFactor : ℚ :=
    match w.recentRain with
    | none => 0
    | some recent =>
      if recent.isOptimal then 1
      else if recent.hasRecentRain ∧ recent.timeSinceRain < 2 then 8/10
      else if recent.hasRecentRain ∧ recent.timeSinceRain < 3 then 1/2
      else if recent.hasRecentRain then 1/5
      else 0
  let sunlightFactor : ℚ :=
    if strIncludes description ("ясно") ∨ strIncludes description ("clear") ∨
        strIncludes description ("солнечно") ∨ strIncludes description ("sunny") then 1
    else if strIncludes description ("переменная") ∨ strIncludes description ("partly") then 8/10
    else if cloudsAll < 50 then 7/10
    else if cloudsAll < 80 then 4/10
    else 1/10
  let rainFactor : ℚ :=
    if strIncludes description ("дождь") ∨ strIncludes description ("rain") then
      if strIncludes description ("легкий") ∨ strIncludes description ("light") then 3/10
      else 1/10
    else if strIncludes description ("туман") ∨ strIncludes description ("mist") then 6/10
    else if m.humidity > 80 then 4/10
    else 0
  let humidityFactor : ℚ :=
    if OPTIMAL_HUMIDITY.1 ≤ m.humidity ∧ m.humidity ≤ OPTIMAL_HUMIDITY.2 then 1
    else if MIN_HUMIDITY ≤ m.humidity then
      1/2 + 1/2 * (m.humidity - MIN_HUMIDITY) / (OPTIMAL_HUMIDITY.1 - MIN_HUMIDITY)
    else 0
  let cloudFactor : ℚ :=
    if 20 ≤ cloudsAll ∧ cloudsAll ≤ 70 then 1
    else if cloudsAll < 20 then 3/10
    else if cloudsAll ≤ 85 then 6/10
    else 1/10
  let visibility : ℚ :=
    match w.visibility with
    | none => 10000
    | some v => if v = 0 then 10000 else v
  let visibilityFactor : ℚ :=
    if OPTIMAL_VISIBILITY ≤ visibility then 1
    else if MIN_VISIBILITY ≤ visibility then visibility / OPTIMAL_VISIBILITY
    else 1/5
  let windSpeed : ℚ :=
    match w.wind with
    | none => 0
    | some wind => wind.speed
  let windFactor : ℚ :=
    if windSpeed ≤ 3 then 1
    else if windSpeed ≤ MAX_WIND_SPEED then 1 - 6/10 * (windSpeed - 3) / (MAX_WIND_SPEED - 3)
    else 1/5
  let temperatureFactor : ℚ :=
    if 10 ≤ m.temp ∧ m.temp ≤ 25 then 1
    else if 0 ≤ m.temp ∧ m.temp < 10 then 7/10
    else if 25 < m.temp ∧ m.temp ≤ 35 then 8/10
    else 1/2
  { rainFactor := rainFactor, humidityFactor := humidityFactor, cloudFactor := cloudFactor,
    visibilityFactor := visibilityFactor, windFactor := windFactor,
    temperatureFactor := temperatureFactor, recentRainFactor := recentRainFactor,
    sunlightFactor := sunlightFactor }

/-- `estimateUVIndex` (lines 573-577). -/
def estimateUVIndex (cloudsAll latitude : ℚ) : ℚ :=
  (max 0 (10 - |latitude| / 9)) * (1 - cloudsAll / 100)

/-- `calculateAtmosphericFactors` (lines 343-364); `weather.uvi || estimate`
falls back on the estimate when `uvi` is absent or `0` (JS falsiness). -/
def calculateAtmosphericFactors (w : Weather) (m : WeatherMain) (cloudsAll latitude : ℚ) :
    AtmosphericFactors :=
  let uvIndex : ℚ :=
    match w.uvi with
    | none => estimateUVIndex cloudsAll latitude
    | some u => if u = 0 then estimateUVIndex cloudsAll latitude else u
  let lightScatteringFactor := min 1 (uvIndex / 5)
  let pressureFactor : ℚ := if m.pressure < 1000 ∨ m.pressure > 1020 then 8/10 else 1
  { lightScatteringFactor := lightScatteringFactor, pressureFactor := pressureFactor,
    airQualityFactor := 9/10 }

/-- `calculateGeometricFactors` (lines 369-390); `cosDeg x` models
`Math.cos(x * Math.PI / 180)`. -/
def calculateGeometricFactors (cosDeg : ℚ → ℚ) (sunPosition : SunPos) (m : WeatherMain) :
    GeometricFactors :=
  let zenithAngle := 90 - sunPosition.altitude
  let airmass := 1 / cosDeg zenithAngle
  let lightScatteringFactor := max (3/10) (1 - (airmass - 1) * (1/10))
  let dropletDistributionFactor : ℚ :=
    if m.humidity > 70 ∧ m.temp > 5 ∧ m.temp < 30 then 8/10 + 2/10 * ((m.humidity - 70) / 30)
    else 1/2
  { lightScatteringFactor := lightScatteringFactor,
    dropletDistributionFactor := dropletDistributionFactor, airmass := airmass }

/-- The geometric light-scattering factor of `calculateGeometricFactors` as a
function of the sun altitude alone (it does not depend on the weather):
`max(0.3, 1 − (airmass − 1)/10)` with `airmass = 1/cos(zenith)`.  Used to
state hypotheses about the cosine oracle. -/
def lightScatteringOf (cosDeg : ℚ → ℚ) (altitude : ℚ) : ℚ :=
  max (3/10) (1 - (1 / cosDeg (90 - altitude) - 1) * (1/10))

/-- `calculateBaseProbability` (lines 395-408): weighted sum of factors, in
percent. -/
def calculateBaseProbability (sunAngleFactor : ℚ) (wf : WeatherFactors)
    (af : AtmosphericFactors) : ℚ :=
  (sunAngleFactor * (25/100) +
    wf.recentRainFactor * (3/10) +
    wf.sunlightFactor * (2/10) +
    wf.cloudFactor * (1/10) +
    wf.visibilityFactor * (5/100) +
    wf.humidityFactor * (5/100) +
    wf.rainFactor * (3/100) +
    af.lightScatteringFactor * (2/100)) * 100

/-- `applyBonusesAndPenalties` (lines 413-452); `desc` is the raw (not
lower-cased) `weather.weather[0].description`, exactly as the JS reads it
here. -/
def applyBonusesAndPenalties (probability : ℚ) (desc : String) (m : WeatherMain)
    (cloudsAll : ℚ) (sunPosition : SunPos) (tf : TimeFactors) : ℚ :=
  if sunPosition.altitude ≤ 0 then 0
  else if sunPosition.altitude < 5 then 0
  else if 22 ≤ tf.currentHour ∨ tf.currentHour ≤ 4 then 0
  else
    let p1 :=
      if strIncludes desc ("дождь") = true ∧ 5 < sunPosition.altitude ∧ sunPosition.altitude < 30
      then probability * (12/10) else probability
    let p2 := if 17 ≤ tf.currentHour ∧ tf.currentHour ≤ 19 then p1 * (11/10) else p1
    let p3 := if m.humidity < 50 then p2 * (1/2) else p2
    if cloudsAll > 90 then p3 * (3/10) else p3

/-- `calculateRainbowDirection` (lines 457-471). -/
def calculateRainbowDirection (sunPosition : SunPos) : RainbowDirection :=
  let antiSolarAzimuth := jsMod (sunPosition.azimuth + 180) 360
  { center := antiSolarAzimuth,
    rangeStart := jsMod (antiSolarAzimuth - RAINBOW_WIDTH / 2 + 360) 360,
    rangeEnd := jsMod (antiSolarAzimuth + RAINBOW_WIDTH / 2) 360,
    elevation := RAINBOW_ANGLE_PRIMARY - sunPosition.altitude,
    dirType := "primary" }

/-- `calculateRainbowQuality` (lines 476-483); the `sunPosition` and `weather`
parameters are unused by the JS body. -/
def calculateRainbowQuality (probability : ℚ) (_sunPosition : SunPos) (_weather : Weather) :
    String :=
  if probability < 20 then ("none")
  else if probability < 40 then ("very_weak")
  else if probability < 60 then ("weak")
  else if probability < 75 then ("moderate")
  else if probability < 90 then ("good")
  else ("excellent")

/-- `analyzeConditions` (lines 488-520); `desc` is the raw description. -/
def analyzeConditions (sunPosition : SunPos) (desc : String) (m : WeatherMain)
    (cloudsAll : ℚ) (tf : TimeFactors) : List ConditionFlag :=
  let sunConds : List ConditionFlag :=
    if sunPosition.altitude < 0 then [⟨"critical", "Солнце под горизонтом"⟩]
    else if sunPosition.altitude > CRITICAL_SUN_ANGLE then
      [⟨"critical", "Солнце слишком высоко для радуги"⟩]
    else if OPTIMAL_SUN_ANGLES.1 ≤ sunPosition.altitude ∧
        sunPosition.altitude ≤ OPTIMAL_SUN_ANGLES.2 then
      [⟨"positive", "Идеальный угол солнца"⟩]
    else []
  let rainConds : List ConditionFlag :=
    if strIncludes desc ("дождь") = true then [⟨"positive", "Присутствуют осадки"⟩] else []
  let humidityConds : List ConditionFlag :=
    if m.humidity > 80 then [⟨"positive", "Высокая влажность"⟩] else []
  let cloudConds : List ConditionFlag :=
    if cloudsAll > 20 ∧ cloudsAll < 70 then [⟨"positive", "Переменная облачность"⟩] else []
  let timeConds : List ConditionFlag :=
    if tf.timeOfDayFactor = 1 then [⟨"positive", "Оптимальное время суток"⟩] else []
  sunConds ++ rainConds ++ humidityConds ++ cloudConds ++ timeConds

/-- Two-digit minute display, JS `padStart(2, '0')`. -/
def pad2 (n : ℕ) : String := if n < 10 then ("0") ++ toString n else toString n

/-- `generateRecommendations` (lines 525-568). -/
def generateRecommendations (probability : ℚ) (sunPosition : SunPos) (w : Weather)
    (solarEvents : ScorerSolarEvents) : List String :=
  let dirStr := toString (jsRound (jsMod (sunPosition.azimuth + 180) 360))
  let base : List String :=
    if probability > 80 then
      [("🌟 СУПЕР условия! Радуга очень вероятна!"),
        ("🧭 Смотрите в направлении ") ++ dirStr ++ ("°")] ++
      (match w.recentRain with
        | some r => if r.isOptimal then [("💧 Недавний дождь + солнце = идеальные условия!")] else []
        | none => [])
    else if probability > 60 then
      [("✅ Отличные условия для поиска радуги!"), ("🧭 Направление: ") ++ dirStr ++ ("°")]
    else if probability > 40 then [("🟡 Умеренные условия, следите за небом")]
    else if probability > 20 then [("🔍 Слабые условия, но радуга возможна")]
    else [("❌ Условия для радуги неблагоприятны")]
  let sunsetRecs : List String :=
    if sunPosition.altitude > CRITICAL_SUN_ANGLE then
      match solarEvents.sunset with
      | some hm => [("⏰ Попробуйте после ") ++ toString hm.1 ++ (":") ++ pad2 hm.2 ++ (" (закат)")]
      | none => []
    else []
  let recentRecs : List String :=
    match w.recentRain with
    | some r =>
      if r.hasRecentRain = false then [("🌧️ Дождитесь дождя, затем ясной погоды")]
      else if r.timeSinceRain > 2 then [("⏳ Дождь был давно, нужен более свежий")]
      else []
    | none => []
  let cloudRecs : List String :=
    match w.clouds with
    | some c => if c.all > 80 then [("☀️ Дождитесь, когда солнце пробьется через облака")] else []
    | none => []
  base ++ sunsetRecs ++ recentRecs ++ cloudRecs

/-- The pipeline of `calculateRainbowProbability` from the factor computation
through clamping (lines 59-89): base probability, time and environment
modifiers, bonuses/penalties, then `Math.max(0, Math.min(100, ·))`. -/
def scoreFinal (cosDeg : ℚ → ℚ) (latitude : ℚ) (w : Weather) (m : WeatherMain)
    (cloudsAll : ℚ) (desc : String) (sunPosition : SunPos) (hour minutes month : ℕ) : ℚ :=
  let sunAngleFactor := calculateSunAngleFactor sunPosition.altitude
  let timeFactors := calculateTimeFactors hour minutes month
  let weatherFactors := calculateWeatherFactors w m cloudsAll desc
  let atmosphericFactors := calculateAtmosphericFactors w m cloudsAll latitude
  let geometricFactors := calculateGeometricFactors cosDeg sunPosition m
  let baseProbability := calculateBaseProbability sunAngleFactor weatherFactors atmosphericFactors
  let timeModifier := timeFactors.timeOfDayFactor * timeFactors.seasonalFactor
  let environmentModifier := geometricFactors.lightScatteringFactor *
    geometricFactors.dropletDistributionFactor
  let finalProbability := baseProbability * timeModifier * environmentModifier
  let finalProbability :=
    applyBonusesAndPenalties finalProbability desc m cloudsAll sunPosition timeFactors
  max 0 (min 100 finalProbability)

/-- The result returned by the `sunPosition.altitude <= 0` hard gate
(lines 47-57). -/
def belowHorizonResult (sunPosition : SunPos) : RainbowResult :=
  { probability := 0,
    direction := none,
    quality := "none",
    sunPosition := some sunPosition,
    factors := FactorsInfo.reason ("Солнце под горизонтом"),
    conditions := [⟨"critical", "Солнце под горизонтом - радуга невозможна"⟩],
    recommendations := [("Дождитесь восхода солнца"), ("Радуга возможна только днем")] }

/-- The sentinel returned by the outer `catch` (lines 131-142): every internal
exception is swallowed and masked as a zero-probability assessment. -/
def errorFallbackResult : RainbowResult :=
  { probability := 0,
    direction := none,
    quality := "none",
    sunPosition := none,
    factors := FactorsInfo.reason ("Ошибка расчета"),
    conditions := [⟨"critical", "Ошибка в расчетах"⟩],
    recommendations := [("Попробуйте обновить данные")] }

/-- The result assembled on the successful path (lines 101-120). -/
def mainResult (cosDeg : ℚ → ℚ) (latitude : ℚ) (w : Weather) (m : WeatherMain)
    (cloudsAll : ℚ) (desc : String) (sunPosition : SunPos) (solarEvents : ScorerSolarEvents)
    (hour minutes month : ℕ) : RainbowResult :=
  let finalProbability := scoreFinal cosDeg latitude w m cloudsAll desc sunPosition hour minutes month
  { probability := (jsRound (finalProbability * 10) : ℚ) / 10,
    direction := some (calculateRainbowDirection sunPosition),
    quality := calculateRainbowQuality finalProbability sunPosition w,
    sunPosition := some sunPosition,
    factors := FactorsInfo.computed (calculateSunAngleFactor sunPosition.altitude)
      (calculateWeatherFactors w m cloudsAll desc)
      (calculateAtmosphericFactors w m cloudsAll latitude)
      (calculateTimeFactors hour minutes month)
      (calculateGeometricFactors cosDeg sunPosition m),
    conditions := analyzeConditions sunPosition desc m cloudsAll
      (calculateTimeFactors hour minutes month),
    recommendations := generateRecommendations finalProbability sunPosition w solarEvents }

/-- The `try` body of `calculateRainbowProbability` (lines 30-129) as an
`Except`.  `latitude = 0`/`longitude = 0` models JS falsiness of `!latitude`.
The JS reads `weather.main.humidity`, `weather.clouds.all` and
`weather.weather[0].description` unconditionally inside
`calculateWeatherFactors` (lines 240, 285, 294) once the altitude gate has
passed, so execution throws a `TypeError` there exactly when one of the three
is absent; the embedding centralises that access check. -/
def rainbowTryBody (cosDeg : ℚ → ℚ) (latitude longitude : ℚ) (weather : Option Weather)
    (sunPosition : SunPos) (solarEvents : ScorerSolarEvents) (hour minutes month : ℕ) :
    Except String RainbowResult :=
  match weather with
  | none => Except.error ("Недостаточно данных для расчета")
  | some w =>
    if latitude = 0 ∨ longitude = 0 then Except.error ("Недостаточно данных для расчета")
    else if sunPosition.altitude ≤ 0 then Except.ok (belowHorizonResult sunPosition)
    else
      match w.main, w.clouds, w.weather with
      | some m, some clouds, d :: _ =>
        Except.ok (mainResult cosDeg latitude w m clouds.all d.description sunPosition
          solarEvents hour minutes month)
      | _, _, _ => Except.error ("TypeError: cannot read property of undefined")

/-- `calculateRainbowProbability` (lines 27-143): the `try` body with the
all-swallowing `catch` that masks every failure as `errorFallbackResult`. -/
def calculateRainbowProbability (cosDeg : ℚ → ℚ) (latitude longitude : ℚ)
    (weather : Option Weather) (sunPosition : SunPos) (solarEvents : ScorerSolarEvents)
    (hour minutes month : ℕ) : RainbowResult :=
  match rainbowTryBody cosDeg latitude longitude weather sunPosition solarEvents
      hour minutes month with
  | Except.ok r => r
  | Except.error _ => errorFallbackResult

/-!
Embedding of `SunCalculator.js` (`src/services/`).  The transcendental
library calls are collected in a `Trig` oracle; `ratPI` is the exact rational
value of the IEEE-double constant `Math.PI`.
-/

/-- Oracle for the `Math` trigonometric functions (radian arguments, exactly
as the JS passes them). -/
structure Trig where
  sin : ℚ → ℚ
  cos : ℚ → ℚ
  tan : ℚ → ℚ
  asin : ℚ → ℚ
  acos : ℚ → ℚ
  atan2 : ℚ → ℚ → ℚ

/-- The exact rational value of the double `Math.PI`. -/
def ratPI : ℚ := 884279719003555 / 281474976710656

/-- `SunCalculator.DEGREES_TO_RADIANS`. -/
def DEGREES_TO_RADIANS : ℚ := ratPI / 180

/-- `SunCalculator.RADIANS_TO_DEGREES`. -/
def RADIANS_TO_DEGREES : ℚ := 180 / ratPI

/-- `SunCalculator.J2000`. -/
def J2000 : ℚ := 2451545

/-- The full sun-position record returned by `calculateSunPosition`. -/
structure SunPosFull where
  altitude : ℚ
  azimuth : ℚ
  declination : ℚ
  rightAscension : ℚ
  julianDay : ℚ
  gmst : ℚ
  hourAngle : ℚ
  deriving DecidableEq, Repr

/-- `SolarEvents`: `Date` results are epoch milliseconds; `sunrise`/`sunset`
and the twilight instants are `none` where the JS returns `null` (or omits the
field, in the polar branch). -/
structure SolarEvents where
  sunrise : Option ℚ
  sunset : Option ℚ
  solarNoon : ℚ
  civilDawn : Option ℚ
  civilDusk : Option ℚ
  nauticalDawn : Option ℚ
  nauticalDusk : Option ℚ
  astronomicalDawn : Option ℚ
  astronomicalDusk : Option ℚ
  isPolarNight : Bool
  isPolarDay : Bool
  deriving DecidableEq, Repr

/-- `getJulianDay` (lines 155-157); `dateMs` is `date.getTime()`. -/
def getJulianDay (dateMs : ℚ) : ℚ := dateMs / 86400000 + 2440587.5

/-- The `while`-loop normalisation into `[0, 360]` used by
`getGeometricMeanLongitudeSun` and `getGreenwichMeanSiderealTime`
(`while (x > 360) x -= 360; while (x < 0) x += 360`). -/
def norm360 (x : ℚ) : ℚ :=
  if x > 360 then x - 360 * (⌈(x - 360) / 360⌉ : ℚ)
  else if x < 0 then x + 360 * (⌈-x / 360⌉ : ℚ)
  else x

/-- `getGeometricMeanLongitudeSun` (lines 159-164). -/
def getGeometricMeanLongitudeSun (T : ℚ) : ℚ :=
  norm360 (280.46646 + T * (36000.76983 + T * 0.0003032))

/-- `getEarthOrbitEccentricity` (lines 166-168). -/
def getEarthOrbitEccentricity (T : ℚ) : ℚ :=
  0.016708634 - T * (0.000042037 + 0.0000001267 * T)

/-- `getSunMeanAnomaly` (lines 170-172). -/
def getSunMeanAnomaly (T : ℚ) : ℚ := 357.52911 + T * (35999.05029 - 0.0001537 * T)

/-- `getSunEquationOfCenter` (lines 174-179). -/
def getSunEquationOfCenter (trig : Trig) (T M : ℚ) : ℚ :=
  let Mrad := M * DEGREES_TO_RADIANS
  trig.sin Mrad * (1.914602 - T * (0.004817 + 0.000014 * T)) +
    trig.sin (2 * Mrad) * (0.019993 - 0.000101 * T) +
    trig.sin (3 * Mrad) * 0.000289

/-- `getMeanObliquityOfEcliptic` (lines 181-183). -/
def getMeanObliquityOfEcliptic (T : ℚ) : ℚ :=
  23.439291 - T * (0.0130042 + T * (0.00000016 - T * 0.000000504))

/-- `getGreenwichMeanSiderealTime` (lines 185-194). -/
def getGreenwichMeanSiderealTime (julianDay : ℚ) : ℚ :=
  let T := (julianDay - J2000) / 36525
  norm360 (280.46061837 + 360.98564736629 * (julianDay - J2000) +
    T * T * (0.000387933 - T / 38710000))

/-- `getEquationOfTime` (lines 196-215); computed (and discarded) by
`calculateSolarEvents`. -/
def getEquationOfTime (trig : Trig) (T : ℚ) : ℚ :=
  let epsilon := getMeanObliquityOfEcliptic T * DEGREES_TO_RADIANS
  let L0 := getGeometricMeanLongitudeSun T * DEGREES_TO_RADIANS
  let e := getEarthOrbitEccentricity T
  let M := getSunMeanAnomaly T * DEGREES_TO_RADIANS
  let y := trig.tan (epsilon / 2)
  let y2 := y * y
  let Etime := y2 * trig.sin (2 * L0) - 2 * e * trig.sin M +
    4 * e * y * trig.sin M * trig.cos (2 * L0) -
    1/2 * y2 * y2 * trig.sin (4 * L0) - 5/4 * e * e * trig.sin (2 * M)
  Etime * RADIANS_TO_DEGREES * 4

/-- `calculateSunPosition` (lines 15-87). -/
def calculateSunPosition (trig : Trig) (latitude longitude dateMs : ℚ) : SunPosFull :=
  let julianDay := getJulianDay dateMs
  let T := (julianDay - J2000) / 36525
  let L0 := getGeometricMeanLongitudeSun T
  let _e := getEarthOrbitEccentricity T
  let M := getSunMeanAnomaly T
  let C := getSunEquationOfCenter trig T M
  let trueLongitude := L0 + C
  let omega := 125.04452 - 1934.136261 * T
  let lambda := trueLongitude - 0.00569 - 0.00478 * trig.sin (omega * DEGREES_TO_RADIANS)
  let epsilon := getMeanObliquityOfEcliptic T
  let declination :=
    trig.asin (trig.sin (epsilon * DEGREES_TO_RADIANS) * trig.sin (lambda * DEGREES_TO_RADIANS)) *
      RADIANS_TO_DEGREES
  let rightAscension :=
    trig.atan2 (trig.cos (epsilon * DEGREES_TO_RADIANS) * trig.sin (lambda * DEGREES_TO_RADIANS))
      (trig.cos (lambda * DEGREES_TO_RADIANS)) * RADIANS_TO_DEGREES
  let gmst := getGreenwichMeanSiderealTime julianDay
  let lst := gmst + longitude
  let hourAngle := lst - rightAscension
  let latRad := latitude * DEGREES_TO_RADIANS
  let decRad := declination * DEGREES_TO_RADIANS
  let haRad := hourAngle * DEGREES_TO_RADIANS
  let sinAlt := trig.sin latRad * trig.sin decRad + trig.cos latRad * trig.cos decRad * trig.cos haRad
  let altitude := trig.asin sinAlt * RADIANS_TO_DEGREES
  let cosAz := (trig.sin decRad - trig.sin latRad * sinAlt) /
    (trig.cos latRad * trig.cos (trig.asin sinAlt))
  let azimuth0 := trig.acos (max (-1) (min 1 cosAz)) * RADIANS_TO_DEGREES
  let azimuth := if trig.sin haRad > 0 then 360 - azimuth0 else azimuth0
  { altitude := altitude, azimuth := azimuth, declination := declination,
    rightAscension := rightAscension, julianDay := julianDay, gmst := gmst,
    hourAngle := hourAngle }

/-- The sunrise/sunset hour-angle cosine of `calculateSolarEvents` (line 110):
`-Math.tan(latRad) * Math.tan(decRad)` with the declination taken from the
sun position at mean solar noon. -/
def solarCosHourAngle (trig : Trig) (latitude longitude dateMs : ℚ) : ℚ :=
  let julianDay := getJulianDay dateMs
  let meanSolarNoon := julianDay - longitude / 360
  let solarNoonPosition :=
    calculateSunPosition trig latitude longitude ((meanSolarNoon - 2440587.5) * 86400000)
  let latRad := latitude * DEGREES_TO_RADIANS
  let decRad := solarNoonPosition.declination * DEGREES_TO_RADIANS
  let cosHourAngle := -(trig.tan latRad) * trig.tan decRad
  cosHourAngle

/-- `calculateEventForAngle` (lines 232-262), returning `(dawn, dusk)`. -/
def calculateEventForAngle (trig : Trig) (latitude longitude dateMs angle : ℚ) :
    Option ℚ × Option ℚ :=
  let julianDay := getJulianDay dateMs
  let meanSolarNoon := julianDay - longitude / 360
  let latRad := latitude * DEGREES_TO_RADIANS
  let angleRad := angle * DEGREES_TO_RADIANS
  let T := (julianDay - J2000) / 36525
  let L := getGeometricMeanLongitudeSun T * DEGREES_TO_RADIANS
  let epsilon := getMeanObliquityOfEcliptic T * DEGREES_TO_RADIANS
  let declination := trig.asin (trig.sin epsilon * trig.sin L)
  let cosHourAngle := (trig.sin angleRad - trig.sin latRad * trig.sin declination) /
    (trig.cos latRad * trig.cos declination)
  if |cosHourAngle| > 1 then (none, none)
  else
    let hourAngle := trig.acos cosHourAngle * RADIANS_TO_DEGREES
    (some ((meanSolarNoon - hourAngle / 360 - 2440587.5) * 86400000),
      some ((meanSolarNoon + hourAngle / 360 - 2440587.5) * 86400000))

/-- `calculateSolarEvents` (lines 92-151). -/
def calculateSolarEvents (trig : Trig) (latitude longitude dateMs : ℚ) : SolarEvents :=
  let julianDay := getJulianDay dateMs
  let T := (julianDay - J2000) / 36525
  let meanSolarNoon := julianDay - longitude / 360
  let _equationOfTime := getEquationOfTime trig T
  let cosHourAngle := solarCosHourAngle trig latitude longitude dateMs
  if |cosHourAngle| > 1 then
    { sunrise := none, sunset := none,
      solarNoon := (meanSolarNoon - 2440587.5) * 86400000,
      civilDawn := none, civilDusk := none, nauticalDawn := none, nauticalDusk := none,
      astronomicalDawn := none, astronomicalDusk := none,
      isPolarNight := decide (cosHourAngle > 1), isPolarDay := decide (cosHourAngle < -1) }
  else
    let hourAngle := trig.acos cosHourAngle * RADIANS_TO_DEGREES
    let sunrise := meanSolarNoon - hourAngle / 360
    let sunset := meanSolarNoon + hourAngle / 360
    let civil := calculateEventForAngle trig latitude longitude dateMs (-6)
    let nautical := calculateEventForAngle trig latitude longitude dateMs (-12)
    let astronomical := calculateEventForAngle trig latitude longitude dateMs (-18)
    { sunrise := some ((sunrise - 2440587.5) * 86400000),
      sunset := some ((sunset - 2440587.5) * 86400000),
      solarNoon := (meanSolarNoon - 2440587.5) * 86400000,
      civilDawn := civil.1, civilDusk := civil.2,
      nauticalDawn := nautical.1, nauticalDusk := nautical.2,
      astronomicalDawn := astronomical.1, astronomicalDusk := astronomical.2,
      isPolarNight := false, isPolarDay := false }

/-!
Helper lemmas: routing of `calculateRainbowProbability` into its three
possible outcomes, and elementary facts about the numeric helpers.
-/

lemma calc_eq_gate (cosDeg : ℚ → ℚ) (latitude longitude : ℚ) (w : Weather)
    (sunPosition : SunPos) (solarEvents : ScorerSolarEvents) (hour minutes month : ℕ)
    (hlat : latitude ≠ 0) (hlon : longitude ≠ 0) (halt : sunPosition.altitude ≤ 0) :
    calculateRainbowProbability cosDeg latitude longitude (some w) sunPosition solarEvents
      hour minutes month = belowHorizonResult sunPosition := by
  unfold calculateRainbowProbability rainbowTryBody
  simp [hlat, hlon, halt]

lemma calc_eq_main (cosDeg : ℚ → ℚ) (latitude longitude : ℚ) (w : Weather)
    (m : WeatherMain) (c : Clouds) (d : WeatherDesc) (ds : List WeatherDesc)
    (sunPosition : SunPos) (solarEvents : ScorerSolarEvents) (hour minutes month : ℕ)
    (hlat : latitude ≠ 0) (hlon : longitude ≠ 0) (halt : 0 < sunPosition.altitude)
    (hm : w.main = some m) (hc : w.clouds = some c) (hw : w.weather = d :: ds) :
    calculateRainbowProbability cosDeg latitude longitude (some w) sunPosition solarEvents
      hour minutes month =
      mainResult cosDeg latitude w m c.all d.description sunPosition solarEvents
        hour minutes month := by
  unfold calculateRainbowProbability rainbowTryBody
  simp [hlat, hlon, not_le.mpr halt, hm, hc, hw]

lemma calc_cases (cosDeg : ℚ → ℚ) (latitude longitude : ℚ) (weather : Option Weather)
    (sunPosition : SunPos) (solarEvents : ScorerSolarEvents) (hour minutes month : ℕ) :
    calculateRainbowProbability cosDeg latitude longitude weather sunPosition solarEvents
        hour minutes month = errorFallbackResult ∨
    (sunPosition.altitude ≤ 0 ∧
      calculateRainbowProbability cosDeg latitude longitude weather sunPosition solarEvents
        hour minutes month = belowHorizonResult sunPosition) ∨
    (∃ w m c d ds, weather = some w ∧ w.main = some m ∧ w.clouds = some c ∧
      w.weather = d :: ds ∧ 0 < sunPosition.altitude ∧
      calculateRainbowProbability cosDeg latitude longitude weather sunPosition solarEvents
        hour minutes month =
        mainResult cosDeg latitude w m c.all d.description sunPosition solarEvents
          hour minutes month) := by
  rcases weather with _ | w
  · left; rfl
  · by_cases hl : latitude = 0 ∨ longitude = 0
    · left
      unfold calculateRainbowProbability rainbowTryBody
      dsimp only
      rw [if_pos hl]
    · push_neg at hl
      by_cases ha : sunPosition.altitude ≤ 0
      · right; left
        exact ⟨ha, calc_eq_gate _ _ _ _ _ _ _ _ _ hl.1 hl.2 ha⟩
      · push_neg at ha
        rcases hmw : w.main with _ | m
        · left
          unfold calculateRainbowProbability rainbowTryBody
          simp [hl.1, hl.2, not_le.mpr ha, hmw]
        · rcases hcw : w.clouds with _ | c
          · left
            unfold calculateRainbowProbability rainbowTryBody
            simp [hl.1, hl.2, not_le.mpr ha, hmw, hcw]
          · rcases hww : w.weather with _ | ⟨d, ds⟩
            · left
              unfold calculateRainbowProbability rainbowTryBody
              simp [hl.1, hl.2, not_le.mpr ha, hmw, hcw, hww]
            · right; right
              exact ⟨w, m, c, d, ds, rfl, hmw, hcw, hww, ha,
                calc_eq_main _ _ _ _ _ _ _ _ _ _ _ _ _ hl.1 hl.2 ha hmw hcw hww⟩

@[simp] lemma calculateTimeFactors_currentHour (hour minutes month : ℕ) :
    (calculateTimeFactors hour minutes month).currentHour = hour := rfl

lemma applyBonuses_eq_zero_of_low (probability : ℚ) (desc : String) (m : WeatherMain)
    (cloudsAll : ℚ) (sunPosition : SunPos) (tf : TimeFactors)
    (h : sunPosition.altitude < 5) :
    applyBonusesAndPenalties probability desc m cloudsAll sunPosition tf = 0 := by
  unfold applyBonusesAndPenalties
  rcases le_or_lt sunPosition.altitude 0 with ha | ha
  · rw [if_pos ha]
  · rw [if_neg (not_le.mpr ha), if_pos h]

lemma applyBonuses_eq_zero_of_night (probability : ℚ) (desc : String) (m : WeatherMain)
    (cloudsAll : ℚ) (sunPosition : SunPos) (tf : TimeFactors)
    (h : 22 ≤ tf.currentHour ∨ tf.currentHour ≤ 4) :
    applyBonusesAndPenalties probability desc m cloudsAll sunPosition tf = 0 := by
  unfold applyBonusesAndPenalties
  rcases le_or_lt sunPosition.altitude 0 with ha | ha
  · rw [if_pos ha]
  · rw [if_neg (not_le.mpr ha)]
    rcases lt_or_le sunPosition.altitude 5 with h5 | h5
    · rw [if_pos h5]
    · rw [if_neg (not_lt.mpr h5), if_pos h]

lemma scoreFinal_eq_zero_of_low (cosDeg : ℚ → ℚ) (latitude : ℚ) (w : Weather)
    (m : WeatherMain) (cloudsAll : ℚ) (desc : String) (sunPosition : SunPos)
    (hour minutes month : ℕ) (h : sunPosition.altitude < 5) :
    scoreFinal cosDeg latitude w m cloudsAll desc sunPosition hour minutes month = 0 := by
  simp only [scoreFinal]
  rw [applyBonuses_eq_zero_of_low _ _ _ _ _ _ h]
  norm_num

lemma scoreFinal_eq_zero_of_night (cosDeg : ℚ → ℚ) (latitude : ℚ) (w : Weather)
    (m : WeatherMain) (cloudsAll : ℚ) (desc : String) (sunPosition : SunPos)
    (hour minutes month : ℕ) (h : 22 ≤ hour ∨ hour ≤ 4) :
    scoreFinal cosDeg latitude w m cloudsAll desc sunPosition hour minutes month = 0 := by
  simp only [scoreFinal]
  rw [applyBonuses_eq_zero_of_night _ _ _ _ _ _ (by simpa using h)]
  norm_num

lemma mainResult_probability (cosDeg : ℚ → ℚ) (latitude : ℚ) (w : Weather)
    (m : WeatherMain) (cloudsAll : ℚ) (desc : String) (sunPosition : SunPos)
    (solarEvents : ScorerSolarEvents) (hour minutes month : ℕ) :
    (mainResult cosDeg latitude w m cloudsAll desc sunPosition solarEvents
        hour minutes month).probability =
      (jsRound (scoreFinal cosDeg latitude w m cloudsAll desc sunPosition hour minutes month
        * 10) : ℚ) / 10 := rfl

@[simp] lemma jsRound_zero : jsRound 0 = 0 := by
  unfold jsRound
  norm_num

lemma scoreFinal_nonneg (cosDeg : ℚ → ℚ) (latitude : ℚ) (w : Weather) (m : WeatherMain)
    (cloudsAll : ℚ) (desc : String) (sunPosition : SunPos) (hour minutes month : ℕ) :
    0 ≤ scoreFinal cosDeg latitude w m cloudsAll desc sunPosition hour minutes month := by
  simp only [scoreFinal]
  exact le_max_left _ _

lemma scoreFinal_le_100 (cosDeg : ℚ → ℚ) (latitude : ℚ) (w : Weather) (m : WeatherMain)
    (cloudsAll : ℚ) (desc : String) (sunPosition : SunPos) (hour minutes month : ℕ) :
    scoreFinal cosDeg latitude w m cloudsAll desc sunPosition hour minutes month ≤ 100 := by
  simp only [scoreFinal]
  exact max_le (by norm_num) (min_le_left _ _)


/-! Piecewise characterisation of `calculateSunAngleFactor`. -/

lemma sunAngle_eq_zero_of_lt5 (a : ℚ) (h : a < 5) : calculateSunAngleFactor a = 0 := by
  unfold calculateSunAngleFactor
  rcases le_or_lt a 0 with h0 | h0
  · rw [if_pos h0]
  · rw [if_neg (not_le.mpr h0), if_pos h]

lemma sunAngle_eq_zero_of_gt42 (a : ℚ) (h : 42 < a) : calculateSunAngleFactor a = 0 := by
  unfold calculateSunAngleFactor CRITICAL_SUN_ANGLE
  rw [if_neg (by linarith), if_neg (by linarith), if_pos h]

lemma sunAngle_eq_one_of_band (a : ℚ) (h1 : 15 ≤ a) (h2 : a ≤ 25) :
    calculateSunAngleFactor a = 1 := by
  unfold calculateSunAngleFactor CRITICAL_SUN_ANGLE OPTIMAL_SUN_ANGLES
  rw [if_neg (by linarith), if_neg (by linarith), if_neg (by norm_num; linarith),
    if_pos (by norm_num; exact ⟨h1, h2⟩)]

lemma sunAngle_eq_ramp_low (a : ℚ) (h1 : 5 ≤ a) (h2 : a < 15) :
    calculateSunAngleFactor a = 3/10 + 7/10 * (a / 15) := by
  unfold calculateSunAngleFactor CRITICAL_SUN_ANGLE OPTIMAL_SUN_ANGLES
  rw [if_neg (by linarith), if_neg (by linarith), if_neg (by norm_num; linarith),
    if_neg (by norm_num; intro h; linarith), if_pos (by norm_num; linarith)]

lemma sunAngle_eq_ramp_high (a : ℚ) (h1 : 25 < a) (h2 : a ≤ 42) :
    calculateSunAngleFactor a = 1 - 8/10 * ((a - 25) / 17) := by
  unfold calculateSunAngleFactor CRITICAL_SUN_ANGLE OPTIMAL_SUN_ANGLES
  rw [if_neg (by linarith), if_neg (by linarith), if_neg (by norm_num; linarith),
    if_neg (by norm_num; intro h; linarith), if_neg (by norm_num; linarith)]
  norm_num

lemma sunAngle_nonneg (a : ℚ) : 0 ≤ calculateSunAngleFactor a := by
  rcases lt_or_le a 5 with h | h
  · rw [sunAngle_eq_zero_of_lt5 a h]
  · rcases lt_or_le a 15 with h15 | h15
    · rw [sunAngle_eq_ramp_low a h h15]; linarith
    · rcases le_or_lt a 25 with h25 | h25
      · rw [sunAngle_eq_one_of_band a (by linarith) h25]; norm_num
      · rcases le_or_lt a 42 with h42 | h42
        · rw [sunAngle_eq_ramp_high a h25 h42]; linarith
        · rw [sunAngle_eq_zero_of_gt42 a h42]

lemma sunAngle_le_one (a : ℚ) : calculateSunAngleFactor a ≤ 1 := by
  rcases lt_or_le a 5 with h | h
  · rw [sunAngle_eq_zero_of_lt5 a h]; norm_num
  · rcases lt_or_le a 15 with h15 | h15
    · rw [sunAngle_eq_ramp_low a h h15]; linarith
    · rcases le_or_lt a 25 with h25 | h25
      · rw [sunAngle_eq_one_of_band a (by linarith) h25]
      · rcases le_or_lt a 42 with h42 | h42
        · rw [sunAngle_eq_ramp_high a h25 h42]; linarith
        · rw [sunAngle_eq_zero_of_gt42 a h42]; norm_num

lemma sunAngle_mono_incr (a b : ℚ) (ha : 0 < a) (hab : a ≤ b) (hb : b ≤ 25) :
    calculateSunAngleFactor a ≤ calculateSunAngleFactor b := by
  rcases lt_or_le a 5 with h5 | h5
  · rw [sunAngle_eq_zero_of_lt5 a h5]
    exact sunAngle_nonneg b
  · rcases lt_or_le b 15 with hb15 | hb15
    · rw [sunAngle_eq_ramp_low a h5 (by linarith), sunAngle_eq_ramp_low b (by linarith) hb15]
      linarith
    · rw [sunAngle_eq_one_of_band b hb15 hb]
      exact sunAngle_le_one a

lemma sunAngle_mono_decr (a b : ℚ) (ha : 25 ≤ a) (hab : a ≤ b) :
    calculateSunAngleFactor b ≤ calculateSunAngleFactor a := by
  rcases lt_or_le 42 a with h42 | h42
  · rw [sunAngle_eq_zero_of_gt42 a h42, sunAngle_eq_zero_of_gt42 b (by linarith)]
  · rcases lt_or_le 42 b with hb42 | hb42
    · rw [sunAngle_eq_zero_of_gt42 b hb42]
      exact sunAngle_nonneg a
    · rcases eq_or_lt_of_le ha with heq | hlt
      · rw [sunAngle_eq_one_of_band a (by linarith) (by linarith)]
        exact sunAngle_le_one b
      · rw [sunAngle_eq_ramp_high a hlt h42, sunAngle_eq_ramp_high b (by linarith) hb42]
        linarith

lemma sunAngle_peak_iff (a : ℚ) (h0 : 0 < a) (h42 : a ≤ 42) :
    calculateSunAngleFactor a = 1 ↔ (15 ≤ a ∧ a ≤ 25) := by
  constructor
  · intro h1
    by_contra hc
    rcases lt_or_le a 5 with h | h
    · rw [sunAngle_eq_zero_of_lt5 a h] at h1; norm_num at h1
    · rcases lt_or_le a 15 with h15 | h15
      · rw [sunAngle_eq_ramp_low a h h15] at h1; linarith
      · rcases le_or_lt a 25 with h25 | h25
        · exact hc ⟨h15, h25⟩
        · rw [sunAngle_eq_ramp_high a h25 h42] at h1; linarith
  · intro h
    exact sunAngle_eq_one_of_band a h.1 h.2

/-! Bounds on `jsRound`. -/

lemma jsRound_nonneg (q : ℚ) (h : 0 ≤ q) : 0 ≤ jsRound q := by
  unfold jsRound
  exact Int.floor_nonneg.mpr (by linarith)

lemma jsRound_le (q c : ℚ) (n : ℤ) (hq : q ≤ c) (hc : c + 1/2 < n + 1) : jsRound q ≤ n := by
  unfold jsRound
  have : q + 1/2 < n + 1 := by linarith
  exact Int.le_of_lt_add_one (Int.floor_lt.mpr (by push_cast; linarith))

lemma jsRound_sub_le (q : ℚ) : |((jsRound q : ℚ)) - q| ≤ 1/2 := by
  unfold jsRound
  have h1 : ((⌊q + 1/2⌋ : ℤ) : ℚ) ≤ q + 1/2 := Int.floor_le _
  have h2 : q + 1/2 - 1 < ((⌊q + 1/2⌋ : ℤ) : ℚ) := Int.sub_one_lt_floor _
  rw [abs_le]
  constructor <;> linarith

/-! Concrete inputs used by counterexamples and witnesses. -/

/-- A well-formed, rainbow-friendly weather snapshot (recent rain within the
hour, clear sky text, good visibility, light wind). -/
def wIdeal : Weather :=
  { main := some { temp := 20, humidity := 76, pressure := 1010 },
    weather := [{ description := "clear" }],
    clouds := some { all := 15 },
    visibility := some 6800,
    wind := some { speed := 2 },
    rain := none,
    recentRain := some { hasRecentRain := true, timeSinceRain := 1/2, isOptimal := true },
    uvi := some 6 }

/-- A snapshot whose required `main` sub-object is missing. -/
def wMissingMain : Weather :=
  { main := none,
    weather := [{ description := "Rain" }],
    clouds := some { all := 50 },
    visibility := none,
    wind := none,
    rain := none,
    recentRain := none,
    uvi := none }

/-- Constant oracle with the value of `Math.cos(70·π/180) ≈ 0.342020` (zenith
angle of a sun at altitude 20°), to three decimals. -/
def cosDeg70 : ℚ → ℚ := fun _ => 171/500

/-- Constant oracle with the value of `Math.cos(30·π/180) ≈ 0.866025` (zenith
angle of a sun at altitude 60°), to three decimals. -/
def cosDeg30 : ℚ → ℚ := fun _ => 433/500

/-- C1: for every weather snapshot and instant that reach the scorer, if the
computed sun altitude is ≤ 0 the scorer returns probability 0, quality
`none`, direction `null`, the critical below-horizon condition and the
wait-for-sunrise recommendations, with the factor breakdown replaced by the
short-circuit `reason` object (no factors are computed). -/
theorem C1_hard_gate (cosDeg : ℚ → ℚ) (latitude longitude : ℚ) (w : Weather)
    (sunPosition : SunPos) (solarEvents : ScorerSolarEvents) (hour minutes month : ℕ)
    (hlat : latitude ≠ 0) (hlon : longitude ≠ 0) (halt : sunPosition.altitude ≤ 0)
    (r : RainbowResult)
    (hr : r = calculateRainbowProbability cosDeg latitude longitude (some w) sunPosition
      solarEvents hour minutes month) :
    r.probability = 0 ∧ r.quality = "none" ∧ r.direction = none ∧
      r.conditions = [⟨"critical", "Солнце под горизонтом - радуга невозможна"⟩] ∧
      r.recommendations = [("Дождитесь восхода солнца"), ("Радуга возможна только днем")] ∧
      r.factors = FactorsInfo.reason ("Солнце под горизонтом") := by
  rw [hr, calc_eq_gate _ _ _ _ _ _ _ _ _ hlat hlon halt]
  exact ⟨rfl, rfl, rfl, rfl, rfl, rfl⟩

/-- Witness for C1 at a concrete below-horizon input. -/
theorem C1_hard_gate_witness :
    (55 : ℚ) ≠ 0 ∧ (37 : ℚ) ≠ 0 ∧ (SunPos.mk (-5) 100).altitude ≤ 0 ∧
      (calculateRainbowProbability cosDeg70 55 37 (some wIdeal) (SunPos.mk (-5) 100)
        (ScorerSolarEvents.mk none) 7 30 5).probability = 0 ∧
      (calculateRainbowProbability cosDeg70 55 37 (some wIdeal) (SunPos.mk (-5) 100)
        (ScorerSolarEvents.mk none) 7 30 5).direction = none := by
  have h := C1_hard_gate cosDeg70 55 37 wIdeal (SunPos.mk (-5) 100) (ScorerSolarEvents.mk none)
    7 30 5 (by norm_num) (by norm_num) (by norm_num) _ rfl
  exact ⟨by norm_num, by norm_num, by norm_num, h.1, h.2.2.1⟩

/-! String-containment facts for the description `"clear"`, used when
evaluating the scorer at concrete inputs (`decide` reduces them; the rational
arithmetic itself is handled by `norm_num`). -/

lemma clear_yasno : strIncludes (jsToLowerCase ("clear")) ("ясно") = false := by decide

lemma clear_clear : strIncludes (jsToLowerCase ("clear")) ("clear") = true := by decide

lemma clear_sol : strIncludes (jsToLowerCase ("clear")) ("солнечно") = false := by decide

lemma clear_sunny : strIncludes (jsToLowerCase ("clear")) ("sunny") = false := by decide

lemma clear_perem : strIncludes (jsToLowerCase ("clear")) ("переменная") = false := by decide

lemma clear_partly : strIncludes (jsToLowerCase ("clear")) ("partly") = false := by decide

lemma clear_dozhd : strIncludes (jsToLowerCase ("clear")) ("дождь") = false := by decide

lemma clear_rain : strIncludes (jsToLowerCase ("clear")) ("rain") = false := by decide

lemma clear_legkiy : strIncludes (jsToLowerCase ("clear")) ("легкий") = false := by decide

lemma clear_light : strIncludes (jsToLowerCase ("clear")) ("light") = false := by decide

lemma clear_tuman : strIncludes (jsToLowerCase ("clear")) ("туман") = false := by decide

lemma clear_mist : strIncludes (jsToLowerCase ("clear")) ("mist") = false := by decide

lemma clear_raw_dozhd : strIncludes ("clear") ("дождь") = false := by decide

/-- C2 counterexample: with the rainbow-friendly snapshot `wIdeal` at local
09:00 in May and sun altitude 60° (above 42°), the returned probability is
52.4, not 0 — the scorer has no hard gate above 42°, only the
sun-angle factor vanishes there. -/
theorem C2_above42_counterexample :
    (42 : ℚ) < (SunPos.mk 60 180).altitude ∧
      (calculateRainbowProbability cosDeg30 55 37 (some wIdeal) (SunPos.mk 60 180)
        (ScorerSolarEvents.mk none) 9 0 5).probability = 262/5 ∧
      (262 : ℚ) / 5 ≠ 0 := by
  refine ⟨by norm_num, ?_, by norm_num⟩
  norm_num [calculateRainbowProbability, rainbowTryBody, mainResult, scoreFinal, wIdeal,
    cosDeg30, calculateSunAngleFactor, calculateTimeFactors, calculateWeatherFactors,
    calculateAtmosphericFactors, calculateGeometricFactors, calculateBaseProbability,
    applyBonusesAndPenalties, estimateUVIndex, jsRound, clear_yasno, clear_clear, clear_sol,
    clear_sunny, clear_perem, clear_partly, clear_dozhd, clear_rain, clear_legkiy,
    clear_light, clear_tuman, clear_mist, clear_raw_dozhd, CRITICAL_SUN_ANGLE,
    OPTIMAL_SUN_ANGLES, OPTIMAL_HUMIDITY, MIN_HUMIDITY, MIN_VISIBILITY, OPTIMAL_VISIBILITY,
    MAX_WIND_SPEED]

/-! Helper lemmas for the probability-level unimodality of the scorer in the
sun altitude: the clamp `max 0 (min 100 ·)`, the product shape of
`scoreFinal`, and bounds on the weather-dependent weights. -/

lemma clamp100_mono (u v : ℚ) (h : u ≤ v) : max 0 (min 100 u) ≤ max 0 (min 100 v) :=
  max_le_max (le_refl 0) (min_le_min (le_refl 100) h)

lemma clamp100_nonneg (u : ℚ) : 0 ≤ max 0 (min 100 u) := le_max_left _ _

lemma clamp100_eq_zero (u : ℚ) (h : u ≤ 0) : max 0 (min 100 u) = 0 :=
  max_eq_left (le_trans (min_le_right _ _) h)

lemma lightScatteringOf_ge (cosDeg : ℚ → ℚ) (a : ℚ) : 3/10 ≤ lightScatteringOf cosDeg a :=
  le_max_left _ _

/-- Monotone step for the clamped product `x·E·g·β` when every factor grows
(the clamp absorbs a possibly negative `x`). -/
lemma prod4_mono_incr (x₁ x₂ E g₁ g₂ β₁ β₂ : ℚ) (hx : x₁ ≤ x₂) (hE : 0 ≤ E)
    (hg : g₁ ≤ g₂) (hg₁ : 0 ≤ g₁) (hβ : β₁ ≤ β₂) (hβ₁ : 0 ≤ β₁) :
    max 0 (min 100 (x₁ * E * g₁ * β₁)) ≤ max 0 (min 100 (x₂ * E * g₂ * β₂)) := by
  rcases le_or_lt x₁ 0 with h0 | h0
  · have hEg : 0 ≤ E * g₁ * β₁ := mul_nonneg (mul_nonneg hE hg₁) hβ₁
    have hv : x₁ * E * g₁ * β₁ ≤ 0 := by nlinarith
    rw [clamp100_eq_zero _ hv]
    exact clamp100_nonneg _
  · apply clamp100_mono
    have h1 : x₁ * E ≤ x₂ * E := mul_le_mul_of_nonneg_right hx hE
    have h2 : x₁ * E * g₁ ≤ x₂ * E * g₂ :=
      mul_le_mul h1 hg hg₁ (mul_nonneg (by linarith) hE)
    exact mul_le_mul h2 hβ hβ₁ (mul_nonneg (mul_nonneg (by linarith) hE) (le_trans hg₁ hg))

/-- Decreasing step for the clamped product, driven by the combined
inequality on `x·g`. -/
lemma prod4_mono_decr (x₁ x₂ E g₁ g₂ β₁ β₂ : ℚ) (hxg : x₂ * g₂ ≤ x₁ * g₁) (hE : 0 ≤ E)
    (hg₂ : 0 ≤ g₂) (hβ : β₂ ≤ β₁) (hβ₂ : 0 ≤ β₂) :
    max 0 (min 100 (x₂ * E * g₂ * β₂)) ≤ max 0 (min 100 (x₁ * E * g₁ * β₁)) := by
  rcases le_or_lt (x₂ * g₂) 0 with h0 | h0
  · have hEβ : 0 ≤ E * β₂ := mul_nonneg hE hβ₂
    have hv : x₂ * E * g₂ * β₂ ≤ 0 := by nlinarith
    rw [clamp100_eq_zero _ hv]
    exact clamp100_nonneg _
  · apply clamp100_mono
    have hx₁g₁ : 0 ≤ x₁ * g₁ := le_trans (le_of_lt h0) hxg
    have h1 : (x₂ * g₂) * (E * β₂) ≤ (x₁ * g₁) * (E * β₂) :=
      mul_le_mul_of_nonneg_right hxg (mul_nonneg hE hβ₂)
    have h2 : (x₁ * g₁) * (E * β₂) ≤ (x₁ * g₁) * (E * β₁) :=
      mul_le_mul_of_nonneg_left (mul_le_mul_of_nonneg_left hβ hE) hx₁g₁
    calc x₂ * E * g₂ * β₂ = (x₂ * g₂) * (E * β₂) := by ring
      _ ≤ (x₁ * g₁) * (E * β₂) := h1
      _ ≤ (x₁ * g₁) * (E * β₁) := h2
      _ = x₁ * E * g₁ * β₁ := by ring

/-- On the whole band [25°, 42°] the sun-angle factor follows the descending
ramp formula (at 25° the optimal-band value 1 coincides with it). -/
lemma sunAngle_formula_high (a : ℚ) (h1 : 25 ≤ a) (h2 : a ≤ 42) :
    calculateSunAngleFactor a = 1 - 8/10 * ((a - 25) / 17) := by
  rcases eq_or_lt_of_le h1 with heq | hlt
  · subst heq
    rw [sunAngle_eq_one_of_band 25 (by norm_num) (by norm_num)]
    norm_num
  · exact sunAngle_eq_ramp_high a hlt h2

/-! Upper bounds on the weather factors entering the weighted sum. -/

lemma weatherFactors_recentRain_le (w : Weather) (m : WeatherMain) (cloudsAll : ℚ)
    (desc : String) : (calculateWeatherFactors w m cloudsAll desc).recentRainFactor ≤ 1 := by
  obtain ⟨mn, wa, cl, vis, wi, ra, rr, uv⟩ := w
  simp only [calculateWeatherFactors]
  rcases rr with _ | r
  · norm_num
  · dsimp only
    split_ifs <;> norm_num

lemma weatherFactors_sunlight_le (w : Weather) (m : WeatherMain) (cloudsAll : ℚ)
    (desc : String) : (calculateWeatherFactors w m cloudsAll desc).sunlightFactor ≤ 1 := by
  simp only [calculateWeatherFactors]
  split_ifs <;> norm_num

lemma weatherFactors_cloud_le (w : Weather) (m : WeatherMain) (cloudsAll : ℚ)
    (desc : String) : (calculateWeatherFactors w m cloudsAll desc).cloudFactor ≤ 1 := by
  simp only [calculateWeatherFactors]
  split_ifs <;> norm_num

lemma weatherFactors_visibility_le (w : Weather) (m : WeatherMain) (cloudsAll : ℚ)
    (desc : String) : (calculateWeatherFactors w m cloudsAll desc).visibilityFactor ≤ 1 := by
  obtain ⟨mn, wa, cl, vis, wi, ra, rr, uv⟩ := w
  simp only [calculateWeatherFactors, OPTIMAL_VISIBILITY, MIN_VISIBILITY]
  rcases vis with _ | v
  · dsimp only
    split_ifs <;> first | linarith | norm_num
  · dsimp only
    split_ifs <;> first | linarith | norm_num

lemma weatherFactors_rain_le (w : Weather) (m : WeatherMain) (cloudsAll : ℚ)
    (desc : String) : (calculateWeatherFactors w m cloudsAll desc).rainFactor ≤ 3/5 := by
  simp only [calculateWeatherFactors]
  split_ifs <;> norm_num

/-- The humidity factor is at most 11/6: the code's `humidity >= 60` branch
has no upper cut, so for humidity in (90, 100] it exceeds 1, peaking at
`0.5 + 0.5·40/15` at the spec's 100% bound. -/
lemma weatherFactors_humidity_le (w : Weather) (m : WeatherMain) (cloudsAll : ℚ)
    (desc : String) (hhum : m.humidity ≤ 100) :
    (calculateWeatherFactors w m cloudsAll desc).humidityFactor ≤ 11/6 := by
  simp only [calculateWeatherFactors, OPTIMAL_HUMIDITY, MIN_HUMIDITY]
  split_ifs <;> first | linarith | norm_num

lemma atmosphericFactors_light_le (w : Weather) (m : WeatherMain) (cloudsAll latitude : ℚ) :
    (calculateAtmosphericFactors w m cloudsAll latitude).lightScatteringFactor ≤ 1 := by
  simp only [calculateAtmosphericFactors]
  exact min_le_left _ _

/-- The altitude-independent part of the weighted sum (the base probability
at sun-angle factor 0) is at most 2339/30 ≈ 77.97 when the snapshot obeys
the spec's humidity ≤ 100 invariant. -/
lemma baseRest_le (w : Weather) (m : WeatherMain) (cloudsAll : ℚ) (desc : String)
    (latitude : ℚ) (hhum : m.humidity ≤ 100) :
    calculateBaseProbability 0 (calculateWeatherFactors w m cloudsAll desc)
      (calculateAtmosphericFactors w m cloudsAll latitude) ≤ 2339/30 := by
  have h1 := weatherFactors_recentRain_le w m cloudsAll desc
  have h2 := weatherFactors_sunlight_le w m cloudsAll desc
  have h3 := weatherFactors_cloud_le w m cloudsAll desc
  have h4 := weatherFactors_visibility_le w m cloudsAll desc
  have h5 := weatherFactors_humidity_le w m cloudsAll desc hhum
  have h6 := weatherFactors_rain_le w m cloudsAll desc
  have h7 := atmosphericFactors_light_le w m cloudsAll latitude
  simp only [calculateBaseProbability]
  linarith

/-- Core decreasing inequality on [25°, 42°]: the sun-angle ramp loses
20/17 ≈ 1.18 of weighted score per degree, which outweighs the at most
19/2000-per-degree growth of a light-scattering factor that is already at
least 21/25 there. -/
lemma sunAngleLight_decr (cosDeg : ℚ → ℚ) (B0 a b : ℚ) (ha : 25 ≤ a) (hab : a ≤ b)
    (hb : b ≤ 42) (hB0 : B0 ≤ 2339/30)
    (hmono : lightScatteringOf cosDeg a ≤ lightScatteringOf cosDeg b)
    (hlip : lightScatteringOf cosDeg b - lightScatteringOf cosDeg a ≤ 19/2000 * (b - a))
    (hfloor : 21/25 ≤ lightScatteringOf cosDeg a) :
    (calculateSunAngleFactor b * 25 + B0) * lightScatteringOf cosDeg b ≤
      (calculateSunAngleFactor a * 25 + B0) * lightScatteringOf cosDeg a := by
  have hsa := sunAngle_formula_high a ha (by linarith)
  have hsb := sunAngle_formula_high b (by linarith) hb
  rw [hsa, hsb]
  set ga := lightScatteringOf cosDeg a with hga
  set gb := lightScatteringOf cosDeg b with hgb
  have hba : (0:ℚ) ≤ b - a := by linarith
  have hd : (0:ℚ) ≤ gb - ga := by linarith
  have hxa : (1 - 8/10 * ((a - 25) / 17)) * 25 + B0 ≤ 3089/30 := by linarith
  have h2 : ((1 - 8/10 * ((a - 25) / 17)) * 25 + B0) * (gb - ga) ≤ 3089/30 * (gb - ga) :=
    mul_le_mul_of_nonneg_right hxa hd
  have h4 : 3089/30 * (gb - ga) ≤ 3089/30 * (19/2000 * (b - a)) :=
    mul_le_mul_of_nonneg_left hlip (by norm_num)
  have h5 : (20/17 * (b - a)) * (21/25) ≤ (20/17 * (b - a)) * gb :=
    mul_le_mul_of_nonneg_left (le_trans hfloor hmono) (mul_nonneg (by norm_num) hba)
  nlinarith [h2, h4, h5]

/-- The rain bonus factor is non-decreasing in altitude on [5°, 25°]. -/
lemma rainBonus_mono_low (desc : String) (a b : ℚ) (h5 : 5 ≤ a) (hab : a ≤ b) (hb : b ≤ 25) :
    (if strIncludes desc ("дождь") = true ∧ 5 < a ∧ a < 30 then (12:ℚ)/10 else 1) ≤
      (if strIncludes desc ("дождь") = true ∧ 5 < b ∧ b < 30 then (12:ℚ)/10 else 1) := by
  by_cases hca : strIncludes desc ("дождь") = true ∧ 5 < a ∧ a < 30
  · rw [if_pos hca, if_pos ⟨hca.1, lt_of_lt_of_le hca.2.1 hab, by linarith⟩]
  · rw [if_neg hca]
    split_ifs <;> norm_num

/-- The rain bonus factor is non-increasing in altitude on [25°, ∞). -/
lemma rainBonus_mono_high (desc : String) (a b : ℚ) (ha : 25 ≤ a) (hab : a ≤ b) :
    (if strIncludes desc ("дождь") = true ∧ 5 < b ∧ b < 30 then (12:ℚ)/10 else 1) ≤
      (if strIncludes desc ("дождь") = true ∧ 5 < a ∧ a < 30 then (12:ℚ)/10 else 1) := by
  by_cases hcb : strIncludes desc ("дождь") = true ∧ 5 < b ∧ b < 30
  · rw [if_pos hcb, if_pos ⟨hcb.1, by linarith, by linarith [hcb.2.2]⟩]
  · rw [if_neg hcb]
    split_ifs <;> norm_num

lemma rainBonus_nonneg (desc : String) (a : ℚ) :
    0 ≤ (if strIncludes desc ("дождь") = true ∧ 5 < a ∧ a < 30 then (12:ℚ)/10 else 1) := by
  split_ifs <;> norm_num

lemma timeOfDayFactor_nonneg (hour minutes month : ℕ) :
    0 ≤ (calculateTimeFactors hour minutes month).timeOfDayFactor := by
  simp only [calculateTimeFactors]
  split_ifs <;> norm_num

lemma seasonalFactor_nonneg (hour minutes month : ℕ) :
    0 ≤ (calculateTimeFactors hour minutes month).seasonalFactor := by
  simp only [calculateTimeFactors]
  split_ifs <;> norm_num

/-- The altitude-independent modifier (time of day, season, droplet
distribution, golden hour, humidity and cloud penalties) is non-negative. -/
lemma envRest_nonneg (m : WeatherMain) (cloudsAll : ℚ) (hour minutes month : ℕ) :
    0 ≤ (calculateTimeFactors hour minutes month).timeOfDayFactor *
      (calculateTimeFactors hour minutes month).seasonalFactor *
      (if m.humidity > 70 ∧ m.temp > 5 ∧ m.temp < 30
        then 8/10 + 2/10 * ((m.humidity - 70) / 30) else (1:ℚ)/2) *
      (if 17 ≤ hour ∧ hour ≤ 19 then (11:ℚ)/10 else 1) *
      (if m.humidity < 50 then (1:ℚ)/2 else 1) *
      (if cloudsAll > 90 then (3:ℚ)/10 else 1) := by
  have h1 := timeOfDayFactor_nonneg hour minutes month
  have h2 := seasonalFactor_nonneg hour minutes month
  have h3 : 0 ≤ (if m.humidity > 70 ∧ m.temp > 5 ∧ m.temp < 30
      then 8/10 + 2/10 * ((m.humidity - 70) / 30) else (1:ℚ)/2) := by
    split_ifs with h
    · linarith [h.1]
    · norm_num
  refine mul_nonneg (mul_nonneg (mul_nonneg (mul_nonneg (mul_nonneg h1 h2) h3) ?_) ?_) ?_ <;>
    (split_ifs <;> norm_num)

/-- Product shape of `scoreFinal` once the three zeroing gates are passed:
the clamp applied to (sun-angle weight + rest of the weighted sum) × the
altitude-independent modifier × the light-scattering factor × the rain
bonus. -/
lemma scoreFinal_shape (cosDeg : ℚ → ℚ) (latitude : ℚ) (w : Weather) (m : WeatherMain)
    (cloudsAll : ℚ) (desc : String) (a azimuth : ℚ) (hour minutes month : ℕ)
    (h5 : 5 ≤ a) (hnight : ¬(22 ≤ hour ∨ hour ≤ 4)) :
    scoreFinal cosDeg latitude w m cloudsAll desc ⟨a, azimuth⟩ hour minutes month =
      max 0 (min 100
        ((calculateSunAngleFactor a * 25 +
            calculateBaseProbability 0 (calculateWeatherFactors w m cloudsAll desc)
              (calculateAtmosphericFactors w m cloudsAll latitude)) *
          ((calculateTimeFactors hour minutes month).timeOfDayFactor *
            (calculateTimeFactors hour minutes month).seasonalFactor *
            (if m.humidity > 70 ∧ m.temp > 5 ∧ m.temp < 30
              then 8/10 + 2/10 * ((m.humidity - 70) / 30) else (1:ℚ)/2) *
            (if 17 ≤ hour ∧ hour ≤ 19 then (11:ℚ)/10 else 1) *
            (if m.humidity < 50 then (1:ℚ)/2 else 1) *
            (if cloudsAll > 90 then (3:ℚ)/10 else 1)) *
          lightScatteringOf cosDeg a *
          (if strIncludes desc ("дождь") = true ∧ 5 < a ∧ a < 30 then (12:ℚ)/10 else 1))) := by
  have h0 : ¬(a ≤ 0) := by push_neg; linarith
  have h5' : ¬(a < 5) := not_lt.mpr h5
  simp only [scoreFinal, applyBonusesAndPenalties, calculateTimeFactors_currentHour,
    calculateGeometricFactors, calculateBaseProbability, lightScatteringOf]
  rw [if_neg h0, if_neg h5', if_neg hnight]
  split_ifs <;>
    exact congrArg (fun t => max 0 (min 100 t)) (by ring)

/-- One-decimal rounding is monotone. -/
lemma jsRoundDiv_mono (k₁ k₂ : ℚ) (h : k₁ ≤ k₂) :
    (jsRound (k₁ * 10) : ℚ) / 10 ≤ (jsRound (k₂ * 10) : ℚ) / 10 := by
  have h1 : jsRound (k₁ * 10) ≤ jsRound (k₂ * 10) := by
    unfold jsRound
    exact Int.floor_le_floor (by linarith)
  have h2 : ((jsRound (k₁ * 10) : ℤ) : ℚ) ≤ ((jsRound (k₂ * 10) : ℤ) : ℚ) := Int.cast_le.mpr h1
  linarith

/-- C2 amended: for a fixed valid weather snapshot (with the spec's
humidity ≤ 100 invariant) and instant, the returned probability as a
function of sun altitude is 0 for every altitude below 5° (hence on all of
the low side of (0°,42°)), but it is NOT forced to 0 above 42° (see the
counterexample: only the sun-angle factor vanishes there); within (0°,42°)
the claimed unimodal shape holds for the returned probability itself: it is
non-decreasing up to 25°, non-increasing from 25° to 42°, and attains its
maximum over (0°,42°] at 25°, inside the claimed [15°,25°] band.  The three
`lightScatteringOf` hypotheses state the facts the proof uses about
`Math.cos` on the zenith range 48°–90° (altitudes 0°–42°): the geometric
light-scattering factor is non-decreasing in altitude (the cosine of the
zenith grows as the sun climbs), and on [25°,42°] it grows by at most
19/2000 per degree while staying at least 21/25 (the true values are a
maximal slope of sec65°·tan65°·(π/180)/10 ≈ 0.0089 at 25° and the value
1 − (sec65° − 1)/10 ≈ 0.8634 at 25°); the witness discharges them with a
concrete rational oracle. -/
theorem C2_sun_altitude_amended (cosDeg : ℚ → ℚ) (latitude longitude azimuth : ℚ)
    (w : Weather) (m : WeatherMain) (c : Clouds) (d : WeatherDesc) (ds : List WeatherDesc)
    (solarEvents : ScorerSolarEvents) (hour minutes month : ℕ)
    (hlat : latitude ≠ 0) (hlon : longitude ≠ 0)
    (hm : w.main = some m) (hc : w.clouds = some c) (hw : w.weather = d :: ds)
    (hhum : m.humidity ≤ 100)
    (hgmono : ∀ a b : ℚ, 0 < a → a ≤ b → b ≤ 42 →
      lightScatteringOf cosDeg a ≤ lightScatteringOf cosDeg b)
    (hglip : ∀ a b : ℚ, 25 ≤ a → a ≤ b → b ≤ 42 →
      lightScatteringOf cosDeg b - lightScatteringOf cosDeg a ≤ 19/2000 * (b - a))
    (hgfloor : ∀ a : ℚ, 25 ≤ a → a ≤ 42 → 21/25 ≤ lightScatteringOf cosDeg a) :
    (∀ a : ℚ, a < 5 →
      (calculateRainbowProbability cosDeg latitude longitude (some w) ⟨a, azimuth⟩
        solarEvents hour minutes month).probability = 0) ∧
    (∀ a b : ℚ, 0 < a → a ≤ b → b ≤ 25 →
      (calculateRainbowProbability cosDeg latitude longitude (some w) ⟨a, azimuth⟩
        solarEvents hour minutes month).probability ≤
      (calculateRainbowProbability cosDeg latitude longitude (some w) ⟨b, azimuth⟩
        solarEvents hour minutes month).probability) ∧
    (∀ a b : ℚ, 25 ≤ a → a ≤ b → b ≤ 42 →
      (calculateRainbowProbability cosDeg latitude longitude (some w) ⟨b, azimuth⟩
        solarEvents hour minutes month).probability ≤
      (calculateRainbowProbability cosDeg latitude longitude (some w) ⟨a, azimuth⟩
        solarEvents hour minutes month).probability) ∧
    (∀ a : ℚ, 0 < a → a ≤ 42 →
      (calculateRainbowProbability cosDeg latitude longitude (some w) ⟨a, azimuth⟩
        solarEvents hour minutes month).probability ≤
      (calculateRainbowProbability cosDeg latitude longitude (some w) ⟨25, azimuth⟩
        solarEvents hour minutes month).probability) := by
  have hmain : ∀ x : ℚ, 0 < x →
      calculateRainbowProbability cosDeg latitude longitude (some w) ⟨x, azimuth⟩ solarEvents
        hour minutes month =
      mainResult cosDeg latitude w m c.all d.description ⟨x, azimuth⟩ solarEvents
        hour minutes month :=
    fun x hx => calc_eq_main cosDeg latitude longitude w m c d ds ⟨x, azimuth⟩ solarEvents
      hour minutes month hlat hlon hx hm hc hw
  have hp : ∀ x : ℚ, 0 < x →
      (calculateRainbowProbability cosDeg latitude longitude (some w) ⟨x, azimuth⟩ solarEvents
        hour minutes month).probability =
      (jsRound (scoreFinal cosDeg latitude w m c.all d.description ⟨x, azimuth⟩
        hour minutes month * 10) : ℚ) / 10 := by
    intro x hx
    rw [hmain x hx, mainResult_probability]
  have hsf_incr : ∀ a b : ℚ, 5 ≤ a → a ≤ b → b ≤ 25 → ¬(22 ≤ hour ∨ hour ≤ 4) →
      scoreFinal cosDeg latitude w m c.all d.description ⟨a, azimuth⟩ hour minutes month ≤
      scoreFinal cosDeg latitude w m c.all d.description ⟨b, azimuth⟩ hour minutes month := by
    intro a b ha hab hb hn
    rw [scoreFinal_shape cosDeg latitude w m c.all d.description a azimuth hour minutes month
        ha hn,
      scoreFinal_shape cosDeg latitude w m c.all d.description b azimuth hour minutes month
        (le_trans ha hab) hn]
    apply prod4_mono_incr
    · have hs := sunAngle_mono_incr a b (by linarith) hab hb
      linarith
    · exact envRest_nonneg m c.all hour minutes month
    · exact hgmono a b (by linarith) hab (by linarith)
    · exact le_trans (by norm_num) (lightScatteringOf_ge cosDeg a)
    · exact rainBonus_mono_low d.description a b ha hab hb
    · exact rainBonus_nonneg d.description a
  have hsf_decr : ∀ a b : ℚ, 25 ≤ a → a ≤ b → b ≤ 42 → ¬(22 ≤ hour ∨ hour ≤ 4) →
      scoreFinal cosDeg latitude w m c.all d.description ⟨b, azimuth⟩ hour minutes month ≤
      scoreFinal cosDeg latitude w m c.all d.description ⟨a, azimuth⟩ hour minutes month := by
    intro a b ha hab hb hn
    rw [scoreFinal_shape cosDeg latitude w m c.all d.description a azimuth hour minutes month
        (by linarith) hn,
      scoreFinal_shape cosDeg latitude w m c.all d.description b azimuth hour minutes month
        (by linarith) hn]
    apply prod4_mono_decr
    · exact sunAngleLight_decr cosDeg _ a b ha hab hb
        (baseRest_le w m c.all d.description latitude hhum)
        (hgmono a b (by linarith) hab hb) (hglip a b ha hab hb)
        (hgfloor a ha (by linarith))
    · exact envRest_nonneg m c.all hour minutes month
    · exact le_trans (by norm_num) (lightScatteringOf_ge cosDeg b)
    · exact rainBonus_mono_high d.description a b ha hab
    · exact rainBonus_nonneg d.description b
  have hzero : ∀ a : ℚ, a < 5 →
      (calculateRainbowProbability cosDeg latitude longitude (some w) ⟨a, azimuth⟩ solarEvents
        hour minutes month).probability = 0 := by
    intro a ha
    rcases le_or_lt a 0 with h0 | h0
    · rw [calc_eq_gate cosDeg latitude longitude w ⟨a, azimuth⟩ solarEvents hour minutes month
        hlat hlon h0]
      rfl
    · rw [hp a h0, scoreFinal_eq_zero_of_low _ _ _ _ _ _ _ _ _ _ ha]
      simp
  have hprob_nonneg : ∀ x : ℚ, 0 < x →
      0 ≤ (calculateRainbowProbability cosDeg latitude longitude (some w) ⟨x, azimuth⟩
        solarEvents hour minutes month).probability := by
    intro x hx
    rw [hp x hx]
    have h1 := scoreFinal_nonneg cosDeg latitude w m c.all d.description ⟨x, azimuth⟩
      hour minutes month
    have h2 := jsRound_nonneg (scoreFinal cosDeg latitude w m c.all d.description ⟨x, azimuth⟩
      hour minutes month * 10) (by linarith)
    have h3 : (0:ℚ) ≤ (jsRound (scoreFinal cosDeg latitude w m c.all d.description ⟨x, azimuth⟩
      hour minutes month * 10) : ℚ) := by exact_mod_cast h2
    linarith
  have hmono2 : ∀ a b : ℚ, 0 < a → a ≤ b → b ≤ 25 →
      (calculateRainbowProbability cosDeg latitude longitude (some w) ⟨a, azimuth⟩ solarEvents
        hour minutes month).probability ≤
      (calculateRainbowProbability cosDeg latitude longitude (some w) ⟨b, azimuth⟩ solarEvents
        hour minutes month).probability := by
    intro a b h0 hab hb
    by_cases hn : 22 ≤ hour ∨ hour ≤ 4
    · rw [hp a h0, hp b (by linarith),
        scoreFinal_eq_zero_of_night _ _ _ _ _ _ _ _ _ _ hn,
        scoreFinal_eq_zero_of_night _ _ _ _ _ _ _ _ _ _ hn]
    · rcases lt_or_le a 5 with h5 | h5
      · rw [hzero a h5]
        exact hprob_nonneg b (by linarith)
      · rw [hp a h0, hp b (by linarith)]
        exact jsRoundDiv_mono _ _ (hsf_incr a b h5 hab hb hn)
  have hmono3 : ∀ a b : ℚ, 25 ≤ a → a ≤ b → b ≤ 42 →
      (calculateRainbowProbability cosDeg latitude longitude (some w) ⟨b, azimuth⟩ solarEvents
        hour minutes month).probability ≤
      (calculateRainbowProbability cosDeg latitude longitude (some w) ⟨a, azimuth⟩ solarEvents
        hour minutes month).probability := by
    intro a b ha hab hb
    by_cases hn : 22 ≤ hour ∨ hour ≤ 4
    · rw [hp a (by linarith), hp b (by linarith),
        scoreFinal_eq_zero_of_night _ _ _ _ _ _ _ _ _ _ hn,
        scoreFinal_eq_zero_of_night _ _ _ _ _ _ _ _ _ _ hn]
    · rw [hp a (by linarith), hp b (by linarith)]
      exact jsRoundDiv_mono _ _ (hsf_decr a b ha hab hb hn)
  refine ⟨hzero, hmono2, hmono3, ?_⟩
  intro a h0 h42
  rcases le_or_lt a 25 with h25 | h25
  · exact hmono2 a 25 h0 h25 (le_refl 25)
  · exact hmono3 25 a (le_refl 25) (le_of_lt h25) h42

/-- Rational cosine oracle for the C2 witness: `cosLin z = 50/(50 + z)`
gives airmass `1 + z/50` and hence the light-scattering factor
`1 − (90 − altitude)/500`, which satisfies the monotonicity, Lipschitz and
floor hypotheses of the amended C2 theorem. -/
def cosLin : ℚ → ℚ := fun z => 50 / (50 + z)

lemma lightScatteringOf_cosLin (a : ℚ) (h0 : 0 < a) (h42 : a ≤ 42) :
    lightScatteringOf cosLin a = 1 - (90 - a) / 500 := by
  unfold lightScatteringOf cosLin
  rw [one_div_div, max_eq_right (by linarith)]
  ring

/-- Witness for C2's amended statement: the concrete oracle `cosLin`
satisfies the cosine hypotheses, and at the valid snapshot `wIdeal` the
probability is 0 at altitude 3°, rises on [5°,25°], and falls on
[25°,42°]. -/
theorem C2_sun_altitude_amended_witness :
    (∀ a b : ℚ, 0 < a → a ≤ b → b ≤ 42 →
      lightScatteringOf cosLin a ≤ lightScatteringOf cosLin b) ∧
    wIdeal.main = some { temp := 20, humidity := 76, pressure := 1010 } ∧
    (calculateRainbowProbability cosLin 55 37 (some wIdeal) ⟨3, 180⟩
      (ScorerSolarEvents.mk none) 9 0 5).probability = 0 ∧
    (calculateRainbowProbability cosLin 55 37 (some wIdeal) ⟨10, 180⟩
      (ScorerSolarEvents.mk none) 9 0 5).probability ≤
      (calculateRainbowProbability cosLin 55 37 (some wIdeal) ⟨20, 180⟩
        (ScorerSolarEvents.mk none) 9 0 5).probability ∧
    (calculateRainbowProbability cosLin 55 37 (some wIdeal) ⟨40, 180⟩
      (ScorerSolarEvents.mk none) 9 0 5).probability ≤
      (calculateRainbowProbability cosLin 55 37 (some wIdeal) ⟨30, 180⟩
        (ScorerSolarEvents.mk none) 9 0 5).probability ∧
    (calculateRainbowProbability cosLin 55 37 (some wIdeal) ⟨35, 180⟩
      (ScorerSolarEvents.mk none) 9 0 5).probability ≤
      (calculateRainbowProbability cosLin 55 37 (some wIdeal) ⟨25, 180⟩
        (ScorerSolarEvents.mk none) 9 0 5).probability := by
  have hgmono : ∀ a b : ℚ, 0 < a → a ≤ b → b ≤ 42 →
      lightScatteringOf cosLin a ≤ lightScatteringOf cosLin b := by
    intro a b h0 hab hb
    rw [lightScatteringOf_cosLin a h0 (by linarith), lightScatteringOf_cosLin b (by linarith) hb]
    linarith
  have hglip : ∀ a b : ℚ, 25 ≤ a → a ≤ b → b ≤ 42 →
      lightScatteringOf cosLin b - lightScatteringOf cosLin a ≤ 19/2000 * (b - a) := by
    intro a b ha hab hb
    rw [lightScatteringOf_cosLin a (by linarith) (by linarith),
      lightScatteringOf_cosLin b (by linarith) hb]
    linarith
  have hgfloor : ∀ a : ℚ, 25 ≤ a → a ≤ 42 → 21/25 ≤ lightScatteringOf cosLin a := by
    intro a ha h42
    rw [lightScatteringOf_cosLin a (by linarith) h42]
    linarith
  have h := C2_sun_altitude_amended cosLin 55 37 180 wIdeal
    { temp := 20, humidity := 76, pressure := 1010 } (Clouds.mk 15) (WeatherDesc.mk ("clear"))
    [] (ScorerSolarEvents.mk none) 9 0 5 (by norm_num) (by norm_num) rfl rfl rfl (by norm_num)
    hgmono hglip hgfloor
  exact ⟨hgmono, rfl, h.1 3 (by norm_num),
    h.2.1 10 20 (by norm_num) (by norm_num) (by norm_num),
    h.2.2.1 30 40 (by norm_num) (by norm_num) (by norm_num),
    h.2.2.2 35 (by norm_num) (by norm_num)⟩
/-- C6: whenever the local hour is in 22-23 or 0-4, the returned probability
is exactly 0, for every weather value and every accumulated bonus (the night
gate in `applyBonusesAndPenalties` discards the whole score). -/
theorem C6_night_lockout (cosDeg : ℚ → ℚ) (latitude longitude : ℚ) (weather : Option Weather)
    (sunPosition : SunPos) (solarEvents : ScorerSolarEvents) (hour minutes month : ℕ)
    (h : 22 ≤ hour ∨ hour ≤ 4) :
    (calculateRainbowProbability cosDeg latitude longitude weather sunPosition solarEvents
      hour minutes month).probability = 0 := by
  rcases calc_cases cosDeg latitude longitude weather sunPosition solarEvents hour minutes month
    with hcase | ⟨_, hcase⟩ | ⟨w, m, c, d, ds, _, _, _, _, _, hcase⟩
  · rw [hcase]; rfl
  · rw [hcase]; rfl
  · rw [hcase, mainResult_probability, scoreFinal_eq_zero_of_night _ _ _ _ _ _ _ _ _ _ h]
    simp

/-- Witness for C6: at local hour 23 with ideal weather and a well-placed sun,
the probability is still 0. -/
theorem C6_night_lockout_witness :
    (22 ≤ 23 ∨ (23 : ℕ) ≤ 4) ∧
      (calculateRainbowProbability cosDeg70 55 37 (some wIdeal) (SunPos.mk 20 180)
        (ScorerSolarEvents.mk none) 23 0 5).probability = 0 := by
  refine ⟨Or.inl (by norm_num), ?_⟩
  exact C6_night_lockout cosDeg70 55 37 (some wIdeal) (SunPos.mk 20 180)
    (ScorerSolarEvents.mk none) 23 0 5 (Or.inl (by norm_num))

/-- C7: for every input the returned probability lies in [0, 100] and is an
integer multiple of 0.1 (the `Math.round(p · 10) / 10` one-decimal rounding). -/
theorem C7_range_invariant (cosDeg : ℚ → ℚ) (latitude longitude : ℚ)
    (weather : Option Weather) (sunPosition : SunPos) (solarEvents : ScorerSolarEvents)
    (hour minutes month : ℕ) :
    0 ≤ (calculateRainbowProbability cosDeg latitude longitude weather sunPosition solarEvents
        hour minutes month).probability ∧
      (calculateRainbowProbability cosDeg latitude longitude weather sunPosition solarEvents
        hour minutes month).probability ≤ 100 ∧
      ∃ k : ℤ, (calculateRainbowProbability cosDeg latitude longitude weather sunPosition
        solarEvents hour minutes month).probability = (k : ℚ) / 10 := by
  rcases calc_cases cosDeg latitude longitude weather sunPosition solarEvents hour minutes month
    with hcase | ⟨_, hcase⟩ | ⟨w, m, c, d, ds, _, _, _, _, _, hcase⟩
  · rw [hcase]
    exact ⟨le_refl 0, by norm_num [errorFallbackResult], 0, by norm_num [errorFallbackResult]⟩
  · rw [hcase]
    exact ⟨le_refl 0, by norm_num [belowHorizonResult], 0, by norm_num [belowHorizonResult]⟩
  · rw [hcase, mainResult_probability]
    have h0 := scoreFinal_nonneg cosDeg latitude w m c.all d.description sunPosition
      hour minutes month
    have h100 := scoreFinal_le_100 cosDeg latitude w m c.all d.description sunPosition
      hour minutes month
    have hr0 : (0 : ℤ) ≤ jsRound (scoreFinal cosDeg latitude w m c.all d.description
        sunPosition hour minutes month * 10) :=
      jsRound_nonneg _ (by linarith)
    have hr1000 : jsRound (scoreFinal cosDeg latitude w m c.all d.description sunPosition
        hour minutes month * 10) ≤ 1000 :=
      jsRound_le _ 1000 1000 (by linarith) (by norm_num)
    have hc0 : (0 : ℚ) ≤ (jsRound (scoreFinal cosDeg latitude w m c.all d.description
        sunPosition hour minutes month * 10) : ℚ) := by exact_mod_cast hr0
    have hc1000 : (jsRound (scoreFinal cosDeg latitude w m c.all d.description sunPosition
        hour minutes month * 10) : ℚ) ≤ 1000 := by exact_mod_cast hr1000
    exact ⟨by linarith, by linarith, _, rfl⟩

/-- C3 (evaluation at the failing input): with `weather.main` absent and the
sun up, the `try` body throws, but `calculateRainbowProbability` swallows the
exception and returns the probability-0/`none` sentinel instead of surfacing
an `InvalidWeatherData` error. -/
theorem C3_silent_zero_on_invalid_weather :
    rainbowTryBody cosDeg70 55 37 (some wMissingMain) (SunPos.mk 10 100)
        (ScorerSolarEvents.mk none) 12 0 6 =
      Except.error ("TypeError: cannot read property of undefined") ∧
      calculateRainbowProbability cosDeg70 55 37 (some wMissingMain) (SunPos.mk 10 100)
        (ScorerSolarEvents.mk none) 12 0 6 = errorFallbackResult ∧
      errorFallbackResult.probability = 0 ∧ errorFallbackResult.quality = "none" := by
  have h1 : rainbowTryBody cosDeg70 55 37 (some wMissingMain) (SunPos.mk 10 100)
      (ScorerSolarEvents.mk none) 12 0 6 =
      Except.error ("TypeError: cannot read property of undefined") := by
    unfold rainbowTryBody wMissingMain
    norm_num
  refine ⟨h1, ?_, rfl, rfl⟩
  unfold calculateRainbowProbability
  rw [h1]

/-- C4 counterexample: a pre-rounding probability of 2136407/35625 ≈ 59.969
rounds to a returned probability of exactly 60.0, yet the quality (computed
from the pre-rounding value) is `weak`, contradicting the claimed
"returned probability 60.0 yields moderate". -/
theorem C4_quality_rounding_counterexample :
    (calculateRainbowProbability cosDeg70 55 37 (some wIdeal) (SunPos.mk 20 180)
        (ScorerSolarEvents.mk none) 9 0 5).probability = 60 ∧
      (calculateRainbowProbability cosDeg70 55 37 (some wIdeal) (SunPos.mk 20 180)
        (ScorerSolarEvents.mk none) 9 0 5).quality = "weak" := by
  constructor <;>
    norm_num [calculateRainbowProbability, rainbowTryBody, mainResult, scoreFinal, wIdeal,
      cosDeg70, calculateSunAngleFactor, calculateTimeFactors, calculateWeatherFactors,
      calculateAtmosphericFactors, calculateGeometricFactors, calculateBaseProbability,
      applyBonusesAndPenalties, estimateUVIndex, jsRound, calculateRainbowQuality,
      clear_yasno, clear_clear, clear_sol, clear_sunny, clear_perem, clear_partly,
      clear_dozhd, clear_rain, clear_legkiy, clear_light, clear_tuman, clear_mist,
      clear_raw_dozhd, CRITICAL_SUN_ANGLE, OPTIMAL_SUN_ANGLES, OPTIMAL_HUMIDITY,
      MIN_HUMIDITY, MIN_VISIBILITY, OPTIMAL_VISIBILITY, MAX_WIND_SPEED]

/-- C4 amended: the quality tier is determined by the documented thresholds
applied to the clamped pre-rounding probability; the returned probability is
that value rounded to one decimal and therefore within 0.05 of it, so the
tier can belong to the adjacent band of the returned probability when the
rounding crosses a threshold. -/
theorem C4_quality_amended (cosDeg : ℚ → ℚ) (latitude longitude : ℚ) (w : Weather)
    (m : WeatherMain) (c : Clouds) (d : WeatherDesc) (ds : List WeatherDesc)
    (sunPosition : SunPos) (solarEvents : ScorerSolarEvents) (hour minutes month : ℕ)
    (hlat : latitude ≠ 0) (hlon : longitude ≠ 0) (halt : 0 < sunPosition.altitude)
    (hm : w.main = some m) (hc : w.clouds = some c) (hw : w.weather = d :: ds)
    (r : RainbowResult)
    (hr : r = calculateRainbowProbability cosDeg latitude longitude (some w) sunPosition
      solarEvents hour minutes month) :
    r.quality = calculateRainbowQuality
        (scoreFinal cosDeg latitude w m c.all d.description sunPosition hour minutes month)
        sunPosition w ∧
      r.probability = (jsRound (scoreFinal cosDeg latitude w m c.all d.description sunPosition
        hour minutes month * 10) : ℚ) / 10 ∧
      |r.probability - scoreFinal cosDeg latitude w m c.all d.description sunPosition
        hour minutes month| ≤ 1/20 := by
  rw [hr, calc_eq_main cosDeg latitude longitude w m c d ds sunPosition solarEvents hour
    minutes month hlat hlon halt hm hc hw]
  refine ⟨rfl, rfl, ?_⟩
  rw [mainResult_probability]
  have h := jsRound_sub_le (scoreFinal cosDeg latitude w m c.all d.description sunPosition
    hour minutes month * 10)
  rw [abs_le] at h ⊢
  constructor <;> linarith [h.1, h.2]

/-- Witness for C4's amended statement at a concrete valid input. -/
theorem C4_quality_amended_witness :
    wIdeal.main = some { temp := 20, humidity := 76, pressure := 1010 } ∧
      (0 : ℚ) < (SunPos.mk 20 180).altitude ∧
      (calculateRainbowProbability cosDeg70 55 37 (some wIdeal) (SunPos.mk 20 180)
          (ScorerSolarEvents.mk none) 9 0 5).quality =
        calculateRainbowQuality
          (scoreFinal cosDeg70 55 wIdeal { temp := 20, humidity := 76, pressure := 1010 }
            (Clouds.mk 15).all (WeatherDesc.mk ("clear")).description (SunPos.mk 20 180) 9 0 5)
          (SunPos.mk 20 180) wIdeal := by
  refine ⟨rfl, by norm_num, ?_⟩
  exact (C4_quality_amended cosDeg70 55 37 wIdeal { temp := 20, humidity := 76, pressure := 1010 }
    (Clouds.mk 15) (WeatherDesc.mk ("clear")) [] (SunPos.mk 20 180) (ScorerSolarEvents.mk none)
    9 0 5 (by norm_num) (by norm_num) (by norm_num) rfl rfl rfl _ rfl).1

/-- C5: for a sun above the horizon the returned direction is
`calculateRainbowDirection` of the sun position alone: its center is the
antisolar azimuth `(sunAzimuth + 180) mod 360`, its elevation is
`42 − sunAltitude`, and the direction is unchanged when only the weather
snapshot changes. -/
theorem C5_direction_antisolar (cosDeg : ℚ → ℚ) (latitude longitude : ℚ) (w₁ w₂ : Weather)
    (m₁ m₂ : WeatherMain) (c₁ c₂ : Clouds) (d₁ d₂ : WeatherDesc) (ds₁ ds₂ : List WeatherDesc)
    (sunPosition : SunPos) (solarEvents : ScorerSolarEvents) (hour minutes month : ℕ)
    (hlat : latitude ≠ 0) (hlon : longitude ≠ 0) (halt : 0 < sunPosition.altitude)
    (hm₁ : w₁.main = some m₁) (hc₁ : w₁.clouds = some c₁) (hw₁ : w₁.weather = d₁ :: ds₁)
    (hm₂ : w₂.main = some m₂) (hc₂ : w₂.clouds = some c₂) (hw₂ : w₂.weather = d₂ :: ds₂) :
    (calculateRainbowProbability cosDeg latitude longitude (some w₁) sunPosition solarEvents
        hour minutes month).direction = some (calculateRainbowDirection sunPosition) ∧
      (calculateRainbowDirection sunPosition).center = jsMod (sunPosition.azimuth + 180) 360 ∧
      (calculateRainbowDirection sunPosition).elevation = 42 - sunPosition.altitude ∧
      (calculateRainbowProbability cosDeg latitude longitude (some w₁) sunPosition solarEvents
          hour minutes month).direction =
        (calculateRainbowProbability cosDeg latitude longitude (some w₂) sunPosition solarEvents
          hour minutes month).direction := by
  rw [calc_eq_main cosDeg latitude longitude w₁ m₁ c₁ d₁ ds₁ sunPosition solarEvents hour
    minutes month hlat hlon halt hm₁ hc₁ hw₁,
    calc_eq_main cosDeg latitude longitude w₂ m₂ c₂ d₂ ds₂ sunPosition solarEvents hour
    minutes month hlat hlon halt hm₂ hc₂ hw₂]
  exact ⟨rfl, rfl, rfl, rfl⟩

/-- A second well-formed snapshot (wet weather), used to witness
weather-independence of the direction. -/
def wWet : Weather :=
  { main := some { temp := 12, humidity := 85, pressure := 995 },
    weather := [{ description := "дождь" }],
    clouds := some { all := 60 },
    visibility := some 9000,
    wind := some { speed := 5 },
    rain := some { oneHour := some 1 },
    recentRain := some { hasRecentRain := true, timeSinceRain := 1, isOptimal := false },
    uvi := none }

/-- Witness for C5 at a concrete sun position and two different snapshots. -/
theorem C5_direction_antisolar_witness :
    (0 : ℚ) < (SunPos.mk 20 300).altitude ∧
      (calculateRainbowProbability cosDeg70 55 37 (some wIdeal) (SunPos.mk 20 300)
          (ScorerSolarEvents.mk none) 9 0 5).direction =
        some (calculateRainbowDirection (SunPos.mk 20 300)) ∧
      (calculateRainbowDirection (SunPos.mk 20 300)).center = jsMod (300 + 180) 360 ∧
      (calculateRainbowProbability cosDeg70 55 37 (some wIdeal) (SunPos.mk 20 300)
          (ScorerSolarEvents.mk none) 9 0 5).direction =
        (calculateRainbowProbability cosDeg70 55 37 (some wWet) (SunPos.mk 20 300)
          (ScorerSolarEvents.mk none) 9 0 5).direction := by
  have h := C5_direction_antisolar cosDeg70 55 37 wIdeal wWet
    { temp := 20, humidity := 76, pressure := 1010 } { temp := 12, humidity := 85, pressure := 995 }
    (Clouds.mk 15) (Clouds.mk 60) (WeatherDesc.mk ("clear")) (WeatherDesc.mk ("дождь")) [] []
    (SunPos.mk 20 300) (ScorerSolarEvents.mk none) 9 0 5
    (by norm_num) (by norm_num) (by norm_num) rfl rfl rfl rfl rfl rfl
  exact ⟨by norm_num, h.1, h.2.1, h.2.2.2⟩

/-- C8 counterexample: at altitude 5° the factor is 8/15 ≈ 0.533, not the 0.3
endpoint the claim's "linear ramp from 0.3 to 1.0 between 5° and 15°"
requires (the code's ramp is `0.3 + 0.7·(altitude/15)`, which only reaches
0.3 at altitude 0, outside the ramp's domain). -/
theorem C8_lower_ramp_counterexample :
    calculateSunAngleFactor 5 = 8/15 ∧ (8 : ℚ)/15 ≠ 3/10 := by
  constructor
  · rw [sunAngle_eq_ramp_low 5 (le_refl 5) (by norm_num)]
    norm_num
  · norm_num

/-- C8 amended: the sun-angle factor is in [0,1]; 0 below 5° (including at or
below the horizon) and above 42°; exactly 1 on [15°,25°]; on [5°,15°) the
linear map `0.3 + 0.7·(altitude/15)` (running from 8/15 at 5° towards 1 at
15°); on (25°,42°] the linear ramp `1 − 0.8·((altitude−25)/17)` from 1 down
to 0.2. -/
theorem C8_sun_angle_factor_amended (a : ℚ) :
    (a < 5 → calculateSunAngleFactor a = 0) ∧
      (42 < a → calculateSunAngleFactor a = 0) ∧
      (15 ≤ a → a ≤ 25 → calculateSunAngleFactor a = 1) ∧
      (5 ≤ a → a < 15 → calculateSunAngleFactor a = 3/10 + 7/10 * (a / 15)) ∧
      (25 < a → a ≤ 42 → calculateSunAngleFactor a = 1 - 8/10 * ((a - 25) / 17)) ∧
      0 ≤ calculateSunAngleFactor a ∧ calculateSunAngleFactor a ≤ 1 :=
  ⟨sunAngle_eq_zero_of_lt5 a, sunAngle_eq_zero_of_gt42 a,
    fun h1 h2 => sunAngle_eq_one_of_band a h1 h2,
    fun h1 h2 => sunAngle_eq_ramp_low a h1 h2,
    fun h1 h2 => sunAngle_eq_ramp_high a h1 h2,
    sunAngle_nonneg a, sunAngle_le_one a⟩

/-- Witness for C8's amended statement at concrete altitudes. -/
theorem C8_sun_angle_factor_amended_witness :
    (5 ≤ (8 : ℚ) ∧ (8 : ℚ) < 15) ∧
      calculateSunAngleFactor 8 = 3/10 + 7/10 * (8 / 15) ∧
      (42 : ℚ) < 50 ∧ calculateSunAngleFactor 50 = 0 :=
  ⟨⟨by norm_num, by norm_num⟩,
    (C8_sun_angle_factor_amended 8).2.2.2.1 (by norm_num) (by norm_num),
    by norm_num,
    (C8_sun_angle_factor_amended 50).2.1 (by norm_num)⟩

/-- C9: when the sunrise/sunset hour-angle cosine exceeds 1 in absolute value
(polar day or polar night), `calculateSolarEvents` returns the flagged
sentinel — `sunrise` and `sunset` are `null`, and exactly the matching polar
flag is set — rather than failing (the embedding is total on this branch). -/
theorem C9_polar_flagged (trig : Trig) (latitude longitude dateMs : ℚ)
    (h : 1 < |solarCosHourAngle trig latitude longitude dateMs|) :
    (calculateSolarEvents trig latitude longitude dateMs).sunrise = none ∧
      (calculateSolarEvents trig latitude longitude dateMs).sunset = none ∧
      ((calculateSolarEvents trig latitude longitude dateMs).isPolarNight = true ∨
        (calculateSolarEvents trig latitude longitude dateMs).isPolarDay = true) ∧
      (calculateSolarEvents trig latitude longitude dateMs).isPolarNight =
        decide (1 < solarCosHourAngle trig latitude longitude dateMs) ∧
      (calculateSolarEvents trig latitude longitude dateMs).isPolarDay =
        decide (solarCosHourAngle trig latitude longitude dateMs < -1) := by
  simp only [calculateSolarEvents]
  rw [if_pos h]
  refine ⟨rfl, rfl, ?_, rfl, rfl⟩
  rcases lt_abs.mp h with hpos | hneg
  · left
    simp only [decide_eq_true_eq]
    exact hpos
  · right
    simp only [decide_eq_true_eq]
    linarith

/-- Trig oracle whose tangent is the constant 2, putting the hour-angle
cosine at −4 (a polar-day configuration). -/
def trigPolar : Trig :=
  { sin := fun _ => 0, cos := fun _ => 0, tan := fun _ => 2,
    asin := fun _ => 0, acos := fun _ => 0, atan2 := fun _ _ => 0 }

/-- Witness for C9 at a concrete polar input. -/
theorem C9_polar_flagged_witness :
    1 < |solarCosHourAngle trigPolar 89 0 0| ∧
      (calculateSolarEvents trigPolar 89 0 0).sunrise = none ∧
      (calculateSolarEvents trigPolar 89 0 0).sunset = none := by
  have h : 1 < |solarCosHourAngle trigPolar 89 0 0| := by
    norm_num [solarCosHourAngle, calculateSunPosition, trigPolar]
  have hall := C9_polar_flagged trigPolar 89 0 0 h
  exact ⟨h, hall.1, hall.2.1⟩

/-- C10 (implicit): for a well-formed snapshot and a sun above the horizon the
returned direction is always non-null — including when the probability has
been zeroed by the low-sun or night gates — and its elevation `42 − altitude`
is negative whenever the altitude exceeds 42°. -/
theorem C10_direction_nonnull (cosDeg : ℚ → ℚ) (latitude longitude : ℚ) (w : Weather)
    (m : WeatherMain) (c : Clouds) (d : WeatherDesc) (ds : List WeatherDesc)
    (sunPosition : SunPos) (solarEvents : ScorerSolarEvents) (hour minutes month : ℕ)
    (hlat : latitude ≠ 0) (hlon : longitude ≠ 0) (halt : 0 < sunPosition.altitude)
    (hm : w.main = some m) (hc : w.clouds = some c) (hw : w.weather = d :: ds) :
    (calculateRainbowProbability cosDeg latitude longitude (some w) sunPosition solarEvents
        hour minutes month).direction = some (calculateRainbowDirection sunPosition) ∧
      (calculateRainbowDirection sunPosition).elevation =
        RAINBOW_ANGLE_PRIMARY - sunPosition.altitude ∧
      (42 < sunPosition.altitude → (calculateRainbowDirection sunPosition).elevation < 0) := by
  rw [calc_eq_main cosDeg latitude longitude w m c d ds sunPosition solarEvents hour minutes
    month hlat hlon halt hm hc hw]
  refine ⟨rfl, rfl, fun hgt => ?_⟩
  have he : (calculateRainbowDirection sunPosition).elevation =
      RAINBOW_ANGLE_PRIMARY - sunPosition.altitude := rfl
  rw [he]
  unfold RAINBOW_ANGLE_PRIMARY
  linarith

/-- Witness for C10: sun altitude 60° at local hour 23 — the probability is
forced to 0 by the night gate, yet the direction is present and its elevation
−18° is negative. -/
theorem C10_direction_nonnull_witness :
    (0 : ℚ) < (SunPos.mk 60 180).altitude ∧
      (calculateRainbowProbability cosDeg70 55 37 (some wIdeal) (SunPos.mk 60 180)
        (ScorerSolarEvents.mk none) 23 0 5).probability = 0 ∧
      (calculateRainbowProbability cosDeg70 55 37 (some wIdeal) (SunPos.mk 60 180)
          (ScorerSolarEvents.mk none) 23 0 5).direction =
        some (calculateRainbowDirection (SunPos.mk 60 180)) ∧
      (calculateRainbowDirection (SunPos.mk 60 180)).elevation < 0 := by
  have h := C10_direction_nonnull cosDeg70 55 37 wIdeal
    { temp := 20, humidity := 76, pressure := 1010 } (Clouds.mk 15) (WeatherDesc.mk ("clear"))
    [] (SunPos.mk 60 180) (ScorerSolarEvents.mk none) 23 0 5
    (by norm_num) (by norm_num) (by norm_num) rfl rfl rfl
  refine ⟨by norm_num, ?_, h.1, h.2.2 (by norm_num)⟩
  rw [calc_eq_main cosDeg70 55 37 wIdeal
    { temp := 20, humidity := 76, pressure := 1010 } (Clouds.mk 15) (WeatherDesc.mk ("clear"))
    [] (SunPos.mk 60 180) (ScorerSolarEvents.mk none) 23 0 5
    (by norm_num) (by norm_num) (by norm_num) rfl rfl rfl,
    mainResult_probability, scoreFinal_eq_zero_of_night _ _ _ _ _ _ _ _ _ _ (Or.inl (by norm_num))]
  simp
